import Mathlib

/-!
Shallow embedding of `apiwrappy.py`, a batch data-collection script that
queries three location-data REST APIs (Yelp, Foursquare, Facebook),
flattens the JSON responses into row dictionaries and writes one CSV
report.  Python dictionaries are modelled as ordered association lists,
Python values as the inductive `PyVal`, network responses as explicit
oracle functions, and raising code as `Except`/`Option` results.
-/

/-- A Python value as it occurs in this program: strings, integers,
booleans, lists and dictionaries (JSON-shaped data).  Floats do not occur
in any claim-relevant computation and are not modelled. -/
inductive PyVal where
  | vstr (s : String)
  | vint (n : Int)
  | vbool (b : Bool)
  | vlist (xs : List PyVal)
  | vobj (kvs : List (String × PyVal))
deriving Repr

/-- Python truthiness (`bool(v)`) for the modelled values: a string is
truthy iff non-empty, an int iff non-zero, a list/dict iff non-empty. -/
def pyTruthy : PyVal → Bool
  | .vstr s => s ≠ ""
  | .vint n => n ≠ 0
  | .vbool b => b
  | .vlist xs => !xs.isEmpty
  | .vobj kvs => !kvs.isEmpty

/-- Python `str(v)` for the values this program stringifies (strings pass
through, ints print in decimal, bools print True/False).  The program
never stringifies a list or dict on any claim-relevant path; for totality
those cases render their entry count. -/
def pyStr : PyVal → String
  | .vstr s => s
  | .vint n => toString n
  | .vbool b => if b then "True" else "False"
  | .vlist xs => toString xs.length
  | .vobj kvs => toString kvs.length

/-- A Python dict with string keys, as an insertion-ordered association
list (keys are unique in every dict this program builds). -/
abbrev Obj := List (String × PyVal)

/-- A Python dict with string keys and string values (parsed CSV terms,
parsed credentials). -/
abbrev StrDict := List (String × String)

/-- `d.get(k)` returning `Option`: first entry with key `k`. -/
def objGet? (kvs : Obj) (k : String) : Option PyVal :=
  (kvs.find? (fun kv => kv.1 = k)).map (fun kv => kv.2)

/-- `d.get(k, default)`. -/
def objGetD (kvs : Obj) (k : String) (d : PyVal) : PyVal :=
  (objGet? kvs k).getD d

/-- `d.get(k, {})` followed by use as a dict.  When the stored value is
present but not a dict, CPython would raise at the subsequent attribute
access; such ill-typed payloads are outside every claim (which quantify
over well-formed payloads) and are mapped to the empty dict. -/
def objGetObjD (kvs : Obj) (k : String) : Obj :=
  match objGet? kvs k with
  | some (.vobj o) => o
  | _ => []

/-- `d.get(k)` on a string-valued dict with Python truthiness folded in:
returns the value when present, else the empty string (absent and empty
are both falsy, which is the only way the program consumes the result). -/
def dgetS (d : StrDict) (k : String) : String :=
  ((d.find? (fun kv => kv.1 = k)).map (fun kv => kv.2)).getD ""

/-- `d[k] = v` on a string dict: overwrite in place or append. -/
def dictSet (d : StrDict) (k v : String) : StrDict :=
  if d.any (fun kv => kv.1 = k) then
    d.map (fun kv => if kv.1 = k then (k, v) else kv)
  else d ++ [(k, v)]

/-- `d.pop(k)`: the dict without key `k`. -/
def dictPop (d : StrDict) (k : String) : StrDict :=
  d.filter (fun kv => kv.1 ≠ k)

/-- Does `pat` occur as a contiguous run inside `s`? -/
def infixB (pat : List Char) : List Char → Bool
  | [] => pat.isEmpty
  | c :: rest => pat.isPrefixOf (c :: rest) || infixB pat rest

/-- Substring test, Python `pat in s`. -/
def strContains (s pat : String) : Bool :=
  infixB pat.data s.data

/-- Python `s.startswith(pre)`. -/
def startsWithB (s pre : String) : Bool :=
  pre.data.isPrefixOf s.data

/-- Python `s.strip()`: remove leading and trailing whitespace. -/
def pyStrip (s : String) : String :=
  ⟨((s.data.dropWhile Char.isWhitespace).reverse.dropWhile
      Char.isWhitespace).reverse⟩

/-- Python `s.strip('_')`: remove leading and trailing underscores. -/
def stripUnderscores (s : String) : String :=
  ⟨((s.data.dropWhile (fun c => c = '_')).reverse.dropWhile
      (fun c => c = '_')).reverse⟩

/-- Python `s.lower()` (ASCII is all that occurs here). -/
def pyLower (s : String) : String :=
  ⟨s.data.map Char.toLower⟩

/-- Worker for `pySplit`: scan left to right; on a separator match emit
the accumulated piece and skip the separator's remaining characters via
the `skip` counter (so the recursion stays structural). -/
def splitGo (sep : List Char) :
    List Char → Nat → List Char → List (List Char) → List (List Char)
  | [], _, acc, pieces => (acc.reverse :: pieces).reverse
  | c :: rest, 0, acc, pieces =>
    if sep.isPrefixOf (c :: rest) then
      splitGo sep rest (sep.length - 1) [] (acc.reverse :: pieces)
    else
      splitGo sep rest 0 (c :: acc) pieces
  | _ :: rest, skip + 1, acc, pieces => splitGo sep rest skip acc pieces

/-- Python `s.split(sep)` for a non-empty separator. -/
def pySplit (s sep : String) : List String :=
  (splitGo sep.data s.data 0 [] []).map List.asString

/-- Worker for `pyReplace`, with the same skip technique. -/
def replGo (pat subst : List Char) :
    List Char → Nat → List Char
  | [], _ => []
  | c :: rest, 0 =>
    if !pat.isEmpty && pat.isPrefixOf (c :: rest) then
      subst ++ replGo pat subst rest (pat.length - 1)
    else
      c :: replGo pat subst rest 0
  | _ :: rest, skip + 1 => replGo pat subst rest skip

/-- Python `s.replace(old, new)` for a non-empty `old`: replace every
non-overlapping occurrence, scanning left to right. -/
def pyReplace (s old new : String) : String :=
  ⟨replGo old.data new.data s.data 0⟩

/-- Decimal digits to a number, `none` on a non-digit or empty input. -/
def digitsToNat? (l : List Char) : Option Nat :=
  if l.isEmpty then none
  else
    l.foldl (fun acc c =>
      match acc with
      | none => none
      | some n => if c.isDigit then some (n * 10 + (c.toNat - 48)) else none)
      (some 0)

/-- Python `int(s)`: surrounding whitespace, optional sign, digits;
`none` models the `ValueError`. -/
def pyInt? (s : String) : Option Int :=
  match (pyStrip s).data with
  | '-' :: ds => (digitsToNat? ds).map (fun n => -(n : Int))
  | '+' :: ds => (digitsToNat? ds).map (fun n => (n : Int))
  | ds => (digitsToNat? ds).map (fun n => (n : Int))

/-! ## RequestEngine (`src/apiwrappy.py` lines 27-50)

`GET` loops forever: sleep, issue the request, parse JSON, return both on
success; on any exception increment the error counter, raise
`RequestEngineError` with a formatted message once the counter equals the
configured limit, else log and retry.  The environment (network plus JSON
parsing) is modelled as the list of outcomes of the successive attempts.
-/

/-- One underlying failure: the exception class name and message. -/
structure PyErr where
  clsName : String
  msg : String

/-- One attempt outcome of `requests.get` + `response.json()`. -/
inductive Attempt (α : Type) where
  | ok (a : α)
  | err (e : PyErr)

namespace RequestEngine

/-- `'Error({}). {}: {}'.format(e.__class__.__name__, self.__class__.__name__, e)` -/
def error_msg (selfCls : String) (e : PyErr) : String :=
  "Error(" ++ e.clsName ++ "). " ++ selfCls ++ ": " ++ e.msg

/-- The `while True` loop of `GET`, consuming successive attempt
outcomes; `errors` is the running error counter.  `none` means the loop
is still running when the supplied attempts run out. -/
def GET_loop (errorsLimit : Nat) (selfCls : String) (errors : Nat) :
    List (Attempt α) → Option (Except String α)
  | [] => none
  | a :: rest =>
    match a with
    | .ok v => some (.ok v)
    | .err e =>
      let errors := errors + 1
      if errors = errorsLimit then some (.error (error_msg selfCls e))
      else GET_loop errorsLimit selfCls errors rest

/-- `RequestEngine.GET` with error counter starting at 0. -/
def GET (errorsLimit : Nat) (selfCls : String) (attempts : List (Attempt α)) :
    Option (Except String α) :=
  GET_loop errorsLimit selfCls 0 attempts

end RequestEngine

/-- Claim C1: with a retry limit of 3, two consecutive failures followed
by a success make `GET` return that success without raising, and three
consecutive failures make it raise a `RequestEngineError` whose message
carries the last underlying error's class name and message, with no
further attempt consumed (the result is independent of any attempts that
would follow the third failure). -/
theorem c1_retry_policy (e1 e2 e3 : PyErr) (v : Nat) (cls : String)
    (rest : List (Attempt Nat)) :
    RequestEngine.GET 3 cls [.err e1, .err e2, .ok v] = some (.ok v)
  ∧ RequestEngine.GET 3 cls ([.err e1, .err e2, .err e3] ++ rest)
      = some (.error ("Error(" ++ e3.clsName ++ "). " ++ cls ++ ": " ++ e3.msg)) := by
  constructor
  · rfl
  · rfl

/-! ## InputTermsParser (`src/apiwrappy.py` lines 109-132)

`parse_terms` iterates the input CSV files; for each file it skips the
first row, skips empty rows, zips every remaining row positionally
against the adapter's expected column list, drops columns whose expected
name starts with `drop_`, and drops fields whose trimmed value is empty.
A file is modelled as its list of already-CSV-split rows. -/

namespace InputTermsParser

/-- `filter_empty_values`: keep entries whose value is not blank. -/
def filter_empty_values (d : StrDict) : StrDict :=
  d.filter (fun kv => pyStrip kv.2 ≠ "")

/-- The dictionary built from one CSV row (the comprehension at line 128
plus `filter_empty_values`). -/
def term_of_row (terms_headers row : List String) : StrDict :=
  filter_empty_values
    ((terms_headers.zip row).filter (fun kv => !startsWithB kv.1 "drop_"))

/-- `parse_terms`: all terms of all files, file order then row order;
each file's first row is skipped and empty rows are skipped. -/
def parse_terms (terms_headers : List String)
    (files : List (List (List String))) : List StrDict :=
  files.flatMap (fun rows =>
    (rows.drop 1).filterMap (fun row =>
      if row.isEmpty then none else some (term_of_row terms_headers row)))

end InputTermsParser

/-- Claim C8: a Term produced by `parse_terms` never contains a key whose
expected column name starts with the drop marker `drop_` and never
contains a blank value; and for a non-dropped column of the row, the
field is present in the Term exactly when its value is non-empty after
trimming. -/
theorem c8_term_fields (terms_headers : List String)
    (files : List (List (List String))) (row : List String) (k v : String)
    (hzip : (k, v) ∈ terms_headers.zip row)
    (hdrop : startsWithB k "drop_" = false) :
    (∀ term ∈ InputTermsParser.parse_terms terms_headers files,
      ∀ kv ∈ term, startsWithB kv.1 "drop_" = false ∧ pyStrip kv.2 ≠ "")
  ∧ ((k, v) ∈ InputTermsParser.term_of_row terms_headers row ↔ pyStrip v ≠ "") := by
  constructor
  · intro term hterm kv hkv
    simp only [InputTermsParser.parse_terms, List.mem_flatMap,
      List.mem_filterMap] at hterm
    obtain ⟨rows, -, r, -, hr⟩ := hterm
    split at hr
    · exact absurd hr (by simp)
    · obtain rfl : InputTermsParser.term_of_row terms_headers r = term := by
        simpa using hr
      simp only [InputTermsParser.term_of_row,
        InputTermsParser.filter_empty_values, List.mem_filter,
        Bool.not_eq_true', decide_eq_true_eq] at hkv
      exact ⟨hkv.1.2, hkv.2⟩
  · simp only [InputTermsParser.term_of_row,
      InputTermsParser.filter_empty_values, List.mem_filter,
      Bool.not_eq_true', decide_eq_true_eq]
    constructor
    · intro h; exact h.2
    · intro h; exact ⟨⟨hzip, hdrop⟩, h⟩

/-- Witness for C8 at a concrete row: with headers `[location, drop_1]`
and row `[Berlin, x]`, the pair `(location, Berlin)` is in the zip, is
not a drop column, and is present in the Term since `Berlin` is
non-blank. -/
theorem c8_term_fields_witness :
    ("location", "Berlin")
        ∈ InputTermsParser.term_of_row ["location", "drop_1"] ["Berlin", "x"]
      ↔ pyStrip "Berlin" ≠ "" :=
  (c8_term_fields ["location", "drop_1"] [] ["Berlin", "x"] "location" "Berlin"
    (by simp) (by decide)).2

/-! ## Foursquare term skipping (`src/apiwrappy.py` lines 262-264, 344-348)

`Foursquare__ApiWrapper.run` begins each loop iteration with
`if not any(True for i in ['q', 'near', 'latitude', 'longitude',
'foursquare_id'] if term.get(i)): continue`.  The adapter's expected
column list is `TERMS_HEADERS`, so its text-query column is named
`query` — a key named `q` can never occur in a Foursquare Term. -/

namespace Foursquare__ApiWrapper

/-- The adapter's expected input columns (class attribute). -/
def TERMS_HEADERS : List String :=
  ["query", "near", "latitude", "longitude", "radius", "limit",
   "foursquare_id"]

/-- The locator-field check at line 347 of `run`: skip the term when
none of the listed keys has a truthy value. -/
def term_skipped (term : StrDict) : Bool :=
  !(["q", "near", "latitude", "longitude", "foursquare_id"].any
      (fun i => dgetS term i ≠ ""))

end Foursquare__ApiWrapper

/-- Claim C3 (code bug): a Foursquare Term whose only populated field is
the text query is skipped by `run`, although the claim says a Term with
a non-empty text-query field is not skipped.  The Term `{query: pizza}`
arises from an actual input file whose data row has `pizza` in the first
column; the skip check tests the key `q`, which is not among the
adapter's expected columns (`query` is), so the check can never see the
text query. -/
theorem c3_foursquare_query_skipped :
    InputTermsParser.parse_terms Foursquare__ApiWrapper.TERMS_HEADERS
        [[["query"], ["pizza"]]] = [[("query", "pizza")]]
  ∧ Foursquare__ApiWrapper.term_skipped [("query", "pizza")] = true
  ∧ Foursquare__ApiWrapper.TERMS_HEADERS.contains "query" = true
  ∧ Foursquare__ApiWrapper.TERMS_HEADERS.contains "q" = false := by
  refine ⟨?_, by decide, by decide, by decide⟩
  decide

/-! ## KeysParser (`src/apiwrappy.py` lines 82-106)

`KEYS_LINES` keeps the credential-file lines that start with `#` and
contain ` = ` after stripping, with every `#` removed and the line
stripped.  `parse_keys` splits each kept line on ` = ` (unpacking into
exactly two parts, a `ValueError` otherwise), lowercases the header, and
for headers containing the wrapper alias stores the header with the
alias removed and underscores stripped from both ends, provided the
value is neither empty nor the placeholder. -/

namespace KeysParser

/-- The reserved placeholder value. -/
def KEY_PLACEHOLDER : String := "set_key_here"

/-- The `KEYS_LINES` comprehension (lines 93-96) applied to the
credential file's lines. -/
def keys_lines (fileLines : List String) : List String :=
  (fileLines.filter
      (fun l => startsWithB l "#" && strContains (pyStrip l) " = ")).map
    (fun l => pyStrip (pyReplace l "#" ""))

/-- The `for keys_line in self.KEYS_LINES` loop of `parse_keys`; the
two-name unpacking of `split(' = ')` raises `ValueError` unless the
split has exactly two parts. -/
def parse_keys_loop (wrapper_alias : String) :
    List String → StrDict → Except String StrDict
  | [], keys => .ok keys
  | keys_line :: rest, keys =>
    match pySplit keys_line " = " with
    | [header, key] =>
      let lheader := pyLower header
      if strContains lheader wrapper_alias && (key != KEY_PLACEHOLDER)
          && (key != "") then
        parse_keys_loop wrapper_alias rest
          (dictSet keys
            (stripUnderscores (pyReplace lheader wrapper_alias "")) key)
      else
        parse_keys_loop wrapper_alias rest keys
    | _ => .error "ValueError"

/-- `parse_keys` over the processed `KEYS_LINES`. -/
def parse_keys (keysLines : List String) (wrapper_alias : String) :
    Except String StrDict :=
  parse_keys_loop wrapper_alias keysLines []

/-- How one processed credential line justifies one stored entry: the
line splits on ` = ` into the header and exactly the stored value, the
lowercased header contains the alias, the stored key is the lowercased
header with every alias occurrence removed and underscores stripped
from both ends, and the value is neither the placeholder nor empty. -/
def entry_from_processed (wrapper_alias pl : String)
    (kv : String × String) : Prop :=
  ∃ header, pySplit pl " = " = [header, kv.2]
    ∧ strContains (pyLower header) wrapper_alias = true
    ∧ kv.1 = stripUnderscores (pyReplace (pyLower header) wrapper_alias "")
    ∧ kv.2 ≠ KEY_PLACEHOLDER
    ∧ kv.2 ≠ ""

end KeysParser

/-- Membership after a dict store: the entry was already there or is the
stored pair. -/
theorem dictSet_mem {d : StrDict} {k v : String} {kv : String × String}
    (h : kv ∈ dictSet d k v) : kv ∈ d ∨ kv = (k, v) := by
  unfold dictSet at h
  split at h
  · rw [List.mem_map] at h
    obtain ⟨kv', hkv', heq⟩ := h
    by_cases hk : kv'.1 = k
    · right; rw [if_pos hk] at heq; exact heq.symm
    · left; rw [if_neg hk] at heq; exact heq ▸ hkv'
  · rw [List.mem_append] at h
    rcases h with h | h
    · exact Or.inl h
    · right; simpa using h

/-- The loop invariant for `parse_keys`: every entry of a successful
result was in the accumulator or is justified by one of the remaining
processed lines. -/
theorem parse_keys_loop_mem {wrapper_alias : String} :
    ∀ (lines : List String) (acc keys : StrDict),
      KeysParser.parse_keys_loop wrapper_alias lines acc = .ok keys →
      ∀ kv ∈ keys, kv ∈ acc ∨
        ∃ pl ∈ lines, KeysParser.entry_from_processed wrapper_alias pl kv := by
  intro lines
  induction lines with
  | nil =>
    intro acc keys h kv hkv
    simp only [KeysParser.parse_keys_loop] at h
    cases h
    exact Or.inl hkv
  | cons line rest ih =>
    intro acc keys h kv hkv
    simp only [KeysParser.parse_keys_loop] at h
    revert h
    split
    · rename_i header key hsplit
      split
      · rename_i hcond
        intro h
        rcases ih _ _ h kv hkv with hacc | ⟨pl, hpl, hgood⟩
        · rcases dictSet_mem hacc with hacc | rfl
          · exact Or.inl hacc
          · refine Or.inr ⟨line, List.mem_cons_self .., ?_⟩
            simp only [Bool.and_eq_true, bne_iff_ne, ne_eq] at hcond
            exact ⟨header, hsplit, hcond.1.1, rfl, hcond.1.2, hcond.2⟩
        · exact Or.inr ⟨pl, List.mem_cons_of_mem _ hpl, hgood⟩
      · intro h
        rcases ih _ _ h kv hkv with hacc | ⟨pl, hpl, hgood⟩
        · exact Or.inl hacc
        · exact Or.inr ⟨pl, List.mem_cons_of_mem _ hpl, hgood⟩
    · intro h; cases h

/-- Claim C7 counterexample: for the credential line
`# a_yelp_b = secret` and alias `yelp`, the stored key is `a__b`
(every alias occurrence is removed but only underscores at the string
ends are stripped), not `a_b` as the header with the alias and its
surrounding underscores removed would be. -/
theorem c7_counterexample :
    KeysParser.parse_keys (KeysParser.keys_lines ["# a_yelp_b = secret"])
        "yelp" = .ok [("a__b", "secret")]
  ∧ ("a__b" : String) ≠ "a_b" := by
  constructor
  · rfl
  · decide

/-- Claim C7 (amended): every entry of a successfully returned mapping
is derived from a file line that starts with `#` and contains ` = `
after stripping; its value is neither the placeholder nor empty; and
its key is the lowercased header with every occurrence of the alias
removed and underscores stripped from both ends of the result. -/
theorem c7_parse_keys_amended (fileLines : List String)
    (wrapper_alias : String) (keys : StrDict)
    (hok : KeysParser.parse_keys (KeysParser.keys_lines fileLines)
        wrapper_alias = .ok keys) :
    ∀ kv ∈ keys, ∃ l ∈ fileLines,
      startsWithB l "#" = true
    ∧ strContains (pyStrip l) " = " = true
    ∧ KeysParser.entry_from_processed wrapper_alias
        (pyStrip (pyReplace l "#" "")) kv := by
  intro kv hkv
  rcases parse_keys_loop_mem _ _ _ hok kv hkv with habs | ⟨pl, hpl, hgood⟩
  · exact absurd habs (List.not_mem_nil kv)
  · simp only [KeysParser.keys_lines, List.mem_map, List.mem_filter,
      Bool.and_eq_true] at hpl
    obtain ⟨l, ⟨hl, hhash, heq⟩, rfl⟩ := hpl
    exact ⟨l, hl, hhash, heq, hgood⟩

/-- Witness for C7 at a concrete file: `# yelp_apikey = abc` parses to
the single entry `(apikey, abc)`, and that entry is justified by the
file line. -/
theorem c7_parse_keys_amended_witness :
    ∃ l ∈ ["# yelp_apikey = abc"],
      startsWithB l "#" = true
    ∧ strContains (pyStrip l) " = " = true
    ∧ KeysParser.entry_from_processed "yelp"
        (pyStrip (pyReplace l "#" "")) ("apikey", "abc") :=
  c7_parse_keys_amended ["# yelp_apikey = abc"] "yelp" [("apikey", "abc")]
    (by rfl) ("apikey", "abc") (by decide)

/-! ## FileTools (`src/apiwrappy.py` lines 53-79)

`csv_out` writes the fixed header row and then, for each buffered row
dictionary, one line whose cell for header `h` is
`row.get(h) if row.get(h, '') and str(row.get(h, '')).strip() else '-'`.
The file is modelled as the list of written lines, each line as the list
of written cell strings. -/

namespace FileTools

/-- The fixed, ordered output header row (class attribute). -/
def CSV_HEADERS : List String :=
  ["QUERY", "TOTAL_API", "TOTAL_EXTRACTED", "SOURCE_LINK", "API_SOURCE",
   "ID", "NAME", "IS_CLOSED", "CATEGORY_1", "CATEGORY_2", "CATEGORY_3",
   "RATING", "REVIEWS_AMOUNT", "LIKES_AMOUNT", "CHECKINS", "PRICE",
   "LATITUDE", "LONGITUDE", "ADDRESS", "PHONE", "WEBSITE",
   "CREATED_AT_DATE", "RUN_TIMESTAMP"]

/-- One written cell (the conditional expression at line 79): the stored
value when `row.get(h, '')` is truthy and its string form does not strip
to empty, else the dash placeholder. -/
def csv_cell (row : Obj) (h : String) : String :=
  let v := objGetD row h (.vstr "")
  if pyTruthy v && (pyStrip (pyStr v) != "") then pyStr v else "-"

/-- The `for row in DATA['rows']` loop of `csv_out`. -/
def csv_out_rows : List Obj → List (List String)
  | [] => []
  | row :: rest =>
    CSV_HEADERS.map (fun h => csv_cell row h) :: csv_out_rows rest

/-- `csv_out`: header row first, then one line per buffered row. -/
def csv_out (rows : List Obj) : List (List String) :=
  CSV_HEADERS :: csv_out_rows rows

end FileTools

/-- The data lines of the output, indexed. -/
theorem csv_out_rows_get? (rows : List Obj) (i : Nat) :
    (FileTools.csv_out_rows rows).get? i =
      (rows.get? i).map
        (fun r => FileTools.CSV_HEADERS.map (fun h => FileTools.csv_cell r h)) := by
  induction rows generalizing i with
  | nil => simp [FileTools.csv_out_rows]
  | cons row rest ih =>
    cases i with
    | zero => simp [FileTools.csv_out_rows]
    | succ j => simpa [FileTools.csv_out_rows] using ih j

/-- Claim C4 counterexample: a record storing the integer 0 under
`CHECKINS` has the value present with non-blank string form `0`, yet the
written cell is the dash placeholder (integer 0 is falsy), not `0`. -/
theorem c4_counterexample :
    objGet? [("CHECKINS", PyVal.vint 0)] "CHECKINS" = some (PyVal.vint 0)
  ∧ pyStrip (pyStr (PyVal.vint 0)) = "0"
  ∧ FileTools.csv_cell [("CHECKINS", PyVal.vint 0)] "CHECKINS" = "-"
  ∧ ("-" : String) ≠ pyStr (PyVal.vint 0) := by
  refine ⟨rfl, rfl, rfl, by decide⟩

/-- Claim C4 (amended): the output is the fixed ordered header row
followed by exactly one line per buffered record in buffer order; a cell
equals the string form of the record's stored value exactly when that
value is truthy (non-zero, non-empty, not False) and its string form is
not whitespace-only, and the dash placeholder otherwise — in particular
an absent column and a present-but-falsy value such as the integer 0
both render as the dash. -/
theorem c4_csv_out (rows : List Obj) (i : Nat) (row : Obj) (h : String) :
    (FileTools.csv_out rows).head? = some FileTools.CSV_HEADERS
  ∧ (FileTools.csv_out rows).length = rows.length + 1
  ∧ (FileTools.csv_out rows).get? (i + 1) =
      (rows.get? i).map
        (fun r => FileTools.CSV_HEADERS.map (fun c => FileTools.csv_cell r c))
  ∧ FileTools.csv_cell row h =
      (match objGet? row h with
       | none => "-"
       | some v =>
         if pyTruthy v && (pyStrip (pyStr v) != "") then pyStr v else "-") := by
  refine ⟨rfl, ?_, ?_, ?_⟩
  · show (FileTools.csv_out_rows rows).length + 1 = rows.length + 1
    congr 1
    induction rows with
    | nil => rfl
    | cons r rest ih => simpa [FileTools.csv_out_rows] using ih
  · exact csv_out_rows_get? rows i
  · unfold FileTools.csv_cell objGetD
    cases hv : objGet? row h with
    | none => rfl
    | some v => rfl

/-! ## The Runner (`src/apiwrappy.py` lines 511-546, function `main`)

`main` iterates the wrapper classes with a shared `DATA` buffer.  For
each wrapper it raises `KeysParserError('Keys not set')` when the parsed
credentials are empty, else calls `run(DATA)`; both exception classes
are caught inside the loop and logged, and after the loop the report is
always written from the buffer.  A wrapper is modelled by the records
its run appends to the buffer before returning or raising, and by
whether it raises. -/

/-- One adapter's observable behaviour for a batch run: its parsed
credentials, the records its `run` appends to the shared buffer (all of
them when it returns, the ones appended before the raise otherwise),
and the exception message when `run` (or the verbose epilogue) raises. -/
structure AdapterBehavior where
  keys : StrDict
  appended : List Obj
  failure : Option String

/-- The `for wrapper_class in wrapper_classes` loop of `main`, carrying
the shared buffer and the logged console messages. -/
def main_loop : List AdapterBehavior → List Obj → List String →
    List Obj × List String
  | [], dat, logs => (dat, logs)
  | w :: ws, dat, logs =>
    if w.keys.isEmpty then
      main_loop ws dat (logs ++ ["Keys not set"])
    else
      match w.failure with
      | some e => main_loop ws (dat ++ w.appended) (logs ++ ["FAILED " ++ e])
      | none => main_loop ws (dat ++ w.appended) logs

/-- `main`: run every adapter against the shared buffer, then write the
report from the final buffer.  Returns (buffer, logs, report). -/
def mainRun (wrappers : List AdapterBehavior) :
    List Obj × List String × List (List String) :=
  let r := main_loop wrappers [] []
  (r.1, r.2, FileTools.csv_out r.1)

/-- What `main_loop` adds to its accumulators. -/
theorem main_loop_spec (ws : List AdapterBehavior) :
    ∀ dat logs, main_loop ws dat logs =
      (dat ++ (ws.filter (fun w => !w.keys.isEmpty)).flatMap
          (fun w => w.appended),
       logs ++ ws.flatMap (fun w =>
          if w.keys.isEmpty then ["Keys not set"]
          else match w.failure with
            | some e => ["FAILED " ++ e]
            | none => [])) := by
  induction ws with
  | nil => intro dat logs; simp [main_loop]
  | cons w rest ih =>
    intro dat logs
    by_cases hk : w.keys.isEmpty
    · have hk2 : w.keys = [] := List.isEmpty_iff.mp hk
      simp [main_loop, hk, hk2, ih]
    · have hk2 : ¬w.keys = [] := by simpa [List.isEmpty_iff] using hk
      cases hf : w.failure with
      | some e => simp [main_loop, hk, hk2, hf, ih]
      | none => simp [main_loop, hk, hk2, hf, ih]

/-- Claim C6: across a batch run, the final shared buffer is exactly the
concatenation, in adapter order, of the records appended by every
adapter that had credentials — independent of which adapters raised, so
a failing adapter keeps its partial records, does not disturb earlier
ones and does not prevent later adapters from contributing; every
failure is logged (a credential failure as `Keys not set`, a run failure
as `FAILED ...`); and the report is always written from that final
buffer. -/
theorem c6_runner_failure_isolation (wrappers : List AdapterBehavior) :
    (mainRun wrappers).1
      = (wrappers.filter (fun w => !w.keys.isEmpty)).flatMap
          (fun w => w.appended)
  ∧ (mainRun wrappers).2.1
      = wrappers.flatMap (fun w =>
          if w.keys.isEmpty then ["Keys not set"]
          else match w.failure with
            | some e => ["FAILED " ++ e]
            | none => [])
  ∧ (mainRun wrappers).2.2
      = FileTools.csv_out
          ((wrappers.filter (fun w => !w.keys.isEmpty)).flatMap
            (fun w => w.appended)) := by
  have h := main_loop_spec wrappers [] []
  refine ⟨?_, ?_, ?_⟩
  · show (main_loop wrappers [] []).1 = _
    rw [h]; simp
  · show (main_loop wrappers [] []).2 = _
    rw [h]; simp
  · show FileTools.csv_out (main_loop wrappers [] []).1 = _
    rw [h]; simp

/-! ## Yelp pagination (`src/apiwrappy.py` lines 222-257)

For each non-skipped term, `Yelp__ApiWrapper.run` reads the user limit
with `int(term.get('limit')) if term.get('limit') else None`.  When the
user limit exceeds the per-page maximum (50) it sets `term['limit'] =
50` and loops: while `offset < term_limit_user and offset <
self.yelp_api_results_max_limit` it sets `term['offset']`, issues the
search request, reads `response_json.get('businesses', [])`, increments
the offset by 50, and extends the accumulator or breaks on an empty
page.  Otherwise it issues a single request and reads
`response_json['businesses']` (a KeyError when absent).  The network is
an oracle from the offset parameter of the request (`none` on the
single-request path, which sends no offset) to the `businesses` field of
the response (`none` when the response body lacks the key). -/

namespace Yelp__ApiWrapper

/-- `self.yelp_api_results_max_limit` from `__init__`. -/
def yelp_api_results_max_limit : Int := 1000

/-- `self.limit_max_per_offset` from `__init__`. -/
def limit_max_per_offset : Int := 50

/-- One search request as far as pagination is concerned: the `offset`
and `limit` parameters carried by the term dict (the remaining
parameters do not change across pages). -/
structure SearchRequest where
  offset : Option Int
  lim : Option Int

/-- The pagination `while` loop, returning the issued requests in order
and the accumulated businesses. -/
def paged_loop (resp : Option Int → Option (List PyVal))
    (term_limit_user : Int) (offset : Int) :
    List SearchRequest × List PyVal :=
  if offset < term_limit_user ∧ offset < yelp_api_results_max_limit then
    let bs := (resp (some offset)).getD []
    if bs.isEmpty then ([⟨some offset, some 50⟩], [])
    else
      let r := paged_loop resp term_limit_user (offset + 50)
      (⟨some offset, some 50⟩ :: r.1, bs ++ r.2)
  else ([], [])
termination_by (term_limit_user - offset).toNat
decreasing_by
  simp_wf
  omega

/-- The per-term body of `run` after the locator check: `limit_field` is
`term.get('limit')`.  Errors model the uncaught `ValueError` from
`int()` and the `KeyError` from `['businesses']`. -/
def run_term (resp : Option Int → Option (List PyVal))
    (limit_field : Option String) :
    Except Unit (List SearchRequest × List PyVal) :=
  let lf := limit_field.getD ""
  if lf ≠ "" then
    match pyInt? lf with
    | none => .error ()
    | some n =>
      if n > limit_max_per_offset then .ok (paged_loop resp n 0)
      else
        match resp none with
        | some bs => .ok ([⟨none, some n⟩], bs)
        | none => .error ()
  else
    match resp none with
    | some bs => .ok ([⟨none, none⟩], bs)
    | none => .error ()

end Yelp__ApiWrapper

/-- One unfolding of the pagination loop. -/
theorem paged_loop_unfold (resp : Option Int → Option (List PyVal))
    (tlu off : Int) :
    Yelp__ApiWrapper.paged_loop resp tlu off =
      if off < tlu ∧ off < Yelp__ApiWrapper.yelp_api_results_max_limit then
        let bs := (resp (some off)).getD []
        if bs.isEmpty then ([⟨some off, some 50⟩], [])
        else
          let r := Yelp__ApiWrapper.paged_loop resp tlu (off + 50)
          (⟨some off, some 50⟩ :: r.1, bs ++ r.2)
      else ([], []) := by
  rw [Yelp__ApiWrapper.paged_loop]

/-- Claim C2: for a Yelp term requesting limit 120, the run issues
exactly the three page requests with offsets 0, 50 and 100, each
carrying the page cap 50 as its limit parameter (offset 150 would reach
the user limit, far below the 1000 ceiling), and accumulates the three
pages — except that an empty page stops pagination immediately after
that page's request. -/
theorem c2_yelp_pagination_120 (resp : Option Int → Option (List PyVal)) :
    Yelp__ApiWrapper.run_term resp (some "120") =
      .ok (if ((resp (some 0)).getD []).isEmpty then
             ([⟨some 0, some 50⟩], [])
           else if ((resp (some 50)).getD []).isEmpty then
             ([⟨some 0, some 50⟩, ⟨some 50, some 50⟩], (resp (some 0)).getD [])
           else
             ([⟨some 0, some 50⟩, ⟨some 50, some 50⟩, ⟨some 100, some 50⟩],
              (resp (some 0)).getD [] ++
                ((resp (some 50)).getD [] ++ (resp (some 100)).getD []))) := by
  have step : ∀ off : Int, off < 120 → off < 1000 →
      Yelp__ApiWrapper.paged_loop resp 120 off =
        (if ((resp (some off)).getD []).isEmpty then
           ([⟨some off, some 50⟩], [])
         else
           (⟨some off, some 50⟩ ::
              (Yelp__ApiWrapper.paged_loop resp 120 (off + 50)).1,
            (resp (some off)).getD [] ++
              (Yelp__ApiWrapper.paged_loop resp 120 (off + 50)).2)) := by
    intro off h1 h2
    rw [paged_loop_unfold]
    rw [if_pos ⟨h1, show off < Yelp__ApiWrapper.yelp_api_results_max_limit
      from h2⟩]
  have stop : Yelp__ApiWrapper.paged_loop resp 120 150 = ([], []) := by
    rw [paged_loop_unfold]
    rw [if_neg]
    intro h
    exact absurd h.1 (by norm_num)
  have hstart : Yelp__ApiWrapper.run_term resp (some "120") =
      .ok (Yelp__ApiWrapper.paged_loop resp 120 0) := rfl
  rw [hstart]
  congr 1
  rw [step 0 (by norm_num) (by norm_num)]
  by_cases h0 : ((resp (some 0)).getD []).isEmpty
  · rw [if_pos h0, if_pos h0]
  · rw [if_neg h0, if_neg h0]
    rw [show (0 : Int) + 50 = 50 from by norm_num]
    rw [step 50 (by norm_num) (by norm_num)]
    by_cases h50 : ((resp (some 50)).getD []).isEmpty
    · rw [if_pos h50, if_pos h50]
      simp
    · rw [if_neg h50, if_neg h50]
      rw [show (50 : Int) + 50 = 100 from by norm_num]
      rw [step 100 (by norm_num) (by norm_num)]
      by_cases h100 : ((resp (some 100)).getD []).isEmpty
      · rw [if_pos h100]
        rw [List.isEmpty_iff] at h100
        simp [h100]
      · rw [if_neg h100]
        rw [show (100 : Int) + 50 = 150 from by norm_num, stop]
        simp

/-- Claim C10: a search response body lacking the `businesses` key is
handled asymmetrically.  On the paginated path (limit 120) the missing
key reads as an empty page via `.get('businesses', [])`, so the run
returns normally after the single page-0 request with no businesses; on
the single-request path (no limit, or limit 30 ≤ 50) the lookup
`['businesses']` raises a KeyError, aborting the run. -/
theorem c10_missing_businesses_asymmetry
    (resp : Option Int → Option (List PyVal))
    (hpage0 : resp (some 0) = none) (hsingle : resp none = none) :
    Yelp__ApiWrapper.run_term resp (some "120") = .ok ([⟨some 0, some 50⟩], [])
  ∧ Yelp__ApiWrapper.run_term resp none = .error ()
  ∧ Yelp__ApiWrapper.run_term resp (some "30") = .error () := by
  refine ⟨?_, ?_, ?_⟩
  · have hstart : Yelp__ApiWrapper.run_term resp (some "120") =
        .ok (Yelp__ApiWrapper.paged_loop resp 120 0) := rfl
    rw [hstart, paged_loop_unfold]
    rw [if_pos (show (0 : Int) < 120 ∧
        (0 : Int) < Yelp__ApiWrapper.yelp_api_results_max_limit from by
      constructor <;> norm_num [Yelp__ApiWrapper.yelp_api_results_max_limit])]
    rw [hpage0]
    rfl
  · rw [show Yelp__ApiWrapper.run_term resp none
        = (match resp none with
           | some bs =>
               Except.ok
                 (([⟨none, none⟩] : List Yelp__ApiWrapper.SearchRequest), bs)
           | none => Except.error ()) from rfl]
    rw [hsingle]
  · rw [show Yelp__ApiWrapper.run_term resp (some "30")
        = (match resp none with
           | some bs =>
               Except.ok
                 (([⟨none, some 30⟩] : List Yelp__ApiWrapper.SearchRequest), bs)
           | none => Except.error ()) from rfl]
    rw [hsingle]

/-- Witness for C10 with the oracle that always omits the `businesses`
key: the paginated path succeeds with one empty page and the
single-request paths raise. -/
theorem c10_missing_businesses_asymmetry_witness :
    Yelp__ApiWrapper.run_term (fun _ => none) (some "120")
        = .ok ([⟨some 0, some 50⟩], [])
  ∧ Yelp__ApiWrapper.run_term (fun _ => none) none = .error ()
  ∧ Yelp__ApiWrapper.run_term (fun _ => none) (some "30") = .error () :=
  c10_missing_businesses_asymmetry (fun _ => none) rfl rfl

/-! ## JSON flattening (`src/apiwrappy.py` lines 182-220 and 304-342)

`parse_business_search_json_response` (Yelp) and
`parse_venue_details_json_response` (Foursquare) flatten one JSON entity
into one output row dictionary.  `datetime.fromtimestamp` converts a
numeric epoch to a calendar date (modelled in UTC) and `strftime`
formats it as `%d-%m-%Y`. -/

/-- `.get(k, d)` on a value used as a dict (a raising attribute access
on a non-dict value is outside the well-formed payloads the claims
quantify over and falls back to the default). -/
def pyvalGetD (v : PyVal) (k : String) (d : PyVal) : PyVal :=
  match v with
  | .vobj kvs => objGetD kvs k d
  | _ => d

/-- Proleptic-Gregorian date of a day count relative to 1970-01-01
(Euclidean-division form of the standard civil-from-days algorithm). -/
def civilFromDays (z0 : Int) : Int × Int × Int :=
  let z := z0 + 719468
  let era := Int.fdiv z 146097
  let doe := z - era * 146097
  let yoe := Int.fdiv (doe - Int.fdiv doe 1460 + Int.fdiv doe 36524
    - Int.fdiv doe 146096) 365
  let y := yoe + era * 400
  let doy := doe - (365 * yoe + Int.fdiv yoe 4 - Int.fdiv yoe 100)
  let mp := Int.fdiv (5 * doy + 2) 153
  let d := doy - Int.fdiv (153 * mp + 2) 5 + 1
  let m := if mp < 10 then mp + 3 else mp - 9
  (if m ≤ 2 then y + 1 else y, m, d)

/-- Zero-padded two-digit rendering for `%d` and `%m`. -/
def pad2 (n : Int) : String :=
  if n < 10 then "0" ++ toString n else toString n

/-- `datetime.datetime.fromtimestamp(epoch).strftime('%d-%m-%Y')`,
modelled in UTC. -/
def epochToDate (epoch : Int) : String :=
  let days := Int.fdiv epoch 86400
  let c := civilFromDays days
  pad2 c.2.2 ++ "-" ++ pad2 c.2.1 ++ "-" ++ toString c.1

/-- The numbered-category loop shared by the flatteners: starting from
counter `n`, store `category.get(field, '-')` under
`CATEGORY_{n+1}`, `CATEGORY_{n+2}`, ... in source order. -/
def category_rows (field : String) : List PyVal → Nat → Obj
  | [], _ => []
  | c :: rest, n =>
    ("CATEGORY_" ++ toString (n + 1), pyvalGetD c field (.vstr "-"))
      :: category_rows field rest (n + 1)

/-- `business.get('categories')` followed by the `if categories:`
truthiness check: the list when present and used, `[]` otherwise. -/
def categories_list (entity : Obj) : List PyVal :=
  match objGet? entity "categories" with
  | some (.vlist cs) => cs
  | _ => []

namespace Yelp__ApiWrapper

/-- `len(business.get('price')) if '$' in business.get('price', '-')
else '-'`. -/
def yelp_price (business : Obj) : PyVal :=
  match objGetD business "price" (.vstr "-") with
  | .vstr s => if s.data.contains '$' then .vint s.length else .vstr "-"
  | _ => .vstr "-"

/-- `', '.join(...)`: over a list of strings the usual comma join, over
a string (the `'-'` default) a join of its characters. -/
def join_display_address (v : PyVal) : String :=
  match v with
  | .vstr s => String.intercalate ", " (s.data.map (fun c => String.singleton c))
  | .vlist xs =>
    String.intercalate ", "
      (xs.map (fun x => match x with | .vstr s => s | y => pyStr y))
  | _ => "-"

/-- The `ROW` built for one business (lines 190-218), in source
insertion order; `total` is `self._response_json.get('total', '-')`,
`extracted` is `len(businesses)` and `ts` the `utcnow` stamp. -/
def business_row (total : PyVal) (extracted : Int)
    (search_term_str ts : String) (business : Obj) : Obj :=
  [("API_SOURCE", .vstr "yelp"),
   ("SOURCE_LINK", objGetD business "url" (.vstr "-")),
   ("QUERY", .vstr search_term_str),
   ("TOTAL_API", total),
   ("TOTAL_EXTRACTED", .vint extracted),
   ("ID", objGetD business "id" (.vstr "-")),
   ("NAME", objGetD business "name" (.vstr "-")),
   ("IS_CLOSED", .vstr (pyStr (objGetD business "is_closed" (.vstr "-"))))]
  ++ category_rows "alias" (categories_list business) 0
  ++ [("REVIEWS_AMOUNT", objGetD business "review_count" (.vstr "-")),
      ("RATING", objGetD business "rating" (.vstr "-")),
      ("PRICE", yelp_price business),
      ("LATITUDE",
        objGetD (objGetObjD business "coordinates") "latitude" (.vstr "-")),
      ("LONGITUDE",
        objGetD (objGetObjD business "coordinates") "longitude" (.vstr "-")),
      ("ADDRESS", .vstr (join_display_address
        (objGetD (objGetObjD business "location") "display_address"
          (.vstr "-")))),
      ("PHONE",
        match objGetD business "phone" (.vstr "-") with
        | .vstr s => .vstr (pyReplace s "+" "")
        | y => y),
      ("RUN_TIMESTAMP", .vstr ts)]

/-- `parse_business_search_json_response`: the rows appended to
`DATA['rows']`, one per business. -/
def parse_business_search_json_response (businesses : List Obj)
    (total : PyVal) (search_term_str ts : String) : List Obj :=
  businesses.map
    (business_row total businesses.length search_term_str ts)

end Yelp__ApiWrapper

namespace Foursquare__ApiWrapper

/-- The `ROW` built by `parse_venue_details_json_response` (lines
304-342) for one venue object, in source insertion order. -/
def parse_venue_details_json_response (venue : Obj)
    (search_term_str ts : String) : Obj :=
  [("QUERY", .vstr search_term_str),
   ("SOURCE_LINK", objGetD venue "canonicalUrl" (.vstr "-")),
   ("API_SOURCE", .vstr "foursquare"),
   ("ID", objGetD venue "id" (.vstr "-")),
   ("NAME", objGetD venue "name" (.vstr "-")),
   ("PHONE", objGetD (objGetObjD venue "contact") "phone" (.vstr "-")),
   ("ADDRESS", .vstr (Yelp__ApiWrapper.join_display_address
     (objGetD (objGetObjD venue "location") "formattedAddress"
       (.vstr "-")))),
   ("LATITUDE", objGetD (objGetObjD venue "location") "lat" (.vstr "-")),
   ("LONGITUDE", objGetD (objGetObjD venue "location") "lng" (.vstr "-"))]
  ++ category_rows "name" (categories_list venue) 0
  ++ [("CHECKINS",
        objGetD (objGetObjD venue "stats") "checkinsCount" (.vstr "-")),
      ("WEBSITE", objGetD venue "url" (.vstr "-")),
      ("PRICE", objGetD (objGetObjD venue "price") "tier" (.vobj [])),
      ("RATING", objGetD venue "rating" (.vstr "-")),
      ("REVIEWS_AMOUNT", objGetD venue "ratingSignals" (.vstr "-")),
      ("CREATED_AT", objGetD venue "createdAt" (.vstr "-")),
      ("LIKES_AMOUNT",
        objGetD (objGetObjD venue "likes") "count" (.vstr "-")),
      ("CREATED_AT_DATE", .vstr
        (match objGetD venue "createdAt" (.vstr "-") with
         | .vint n => epochToDate n
         | _ => "-")),
      ("RUN_TIMESTAMP", .vstr ts)]

end Foursquare__ApiWrapper

/-- `[(k, v)]` when the optional field is populated, nothing when
absent. -/
def optEntry (k : String) : Option PyVal → Obj
  | some v => [(k, v)]
  | none => []

/-- A well-formed Yelp business payload: each source field either absent
or populated (category entries are dicts, price a string, address lines
strings, as the Yelp API serves them). -/
structure YelpBusiness where
  url? : Option PyVal
  id? : Option PyVal
  name? : Option PyVal
  is_closed? : Option PyVal
  categories : List Obj
  review_count? : Option PyVal
  rating? : Option PyVal
  price? : Option String
  latitude? : Option PyVal
  longitude? : Option PyVal
  display_address? : Option (List String)
  phone? : Option String

/-- The JSON object a `YelpBusiness` stands for. -/
def YelpBusiness.toObj (b : YelpBusiness) : Obj :=
  optEntry "url" b.url?
  ++ optEntry "id" b.id?
  ++ optEntry "name" b.name?
  ++ optEntry "is_closed" b.is_closed?
  ++ optEntry "categories"
      (if b.categories.isEmpty then none
       else some (.vlist (b.categories.map .vobj)))
  ++ optEntry "review_count" b.review_count?
  ++ optEntry "rating" b.rating?
  ++ optEntry "price" (b.price?.map .vstr)
  ++ [("coordinates", .vobj (optEntry "latitude" b.latitude?
        ++ optEntry "longitude" b.longitude?))]
  ++ [("location", .vobj (optEntry "display_address"
        (b.display_address?.map (fun xs => .vlist (xs.map .vstr)))))]
  ++ optEntry "phone" (b.phone?.map .vstr)

/-- The numbered category columns as the specification words them:
`CATEGORY_1`, `CATEGORY_2`, ... in source order, each holding the
category's `field` attribute (or the dash). -/
def spec_categories (field : String) (cs : List Obj) : Obj :=
  cs.enum.map (fun p =>
    ("CATEGORY_" ++ toString (p.1 + 1), objGetD p.2 field (.vstr "-")))

/-- The record the specification describes for one Yelp business, as
amended: every populated source field under its documented column
(pass-through values, numbered categories, comma-joined address, phone
with `+` removed), the dash for every absent field; the price clause is
the amended one — only dollar-sign price strings are converted to their
character count, because the flattener tests `'$' in price`, so a price
written in another repeated currency symbol such as `€€€` renders as
the dash, refuting the original repeated-currency wording (see the
claim's counterexample). -/
def yelp_spec_record (b : YelpBusiness) (total : PyVal) (extracted : Int)
    (q ts : String) : Obj :=
  [("API_SOURCE", .vstr "yelp"),
   ("SOURCE_LINK", b.url?.getD (.vstr "-")),
   ("QUERY", .vstr q),
   ("TOTAL_API", total),
   ("TOTAL_EXTRACTED", .vint extracted),
   ("ID", b.id?.getD (.vstr "-")),
   ("NAME", b.name?.getD (.vstr "-")),
   ("IS_CLOSED", .vstr (pyStr (b.is_closed?.getD (.vstr "-"))))]
  ++ spec_categories "alias" b.categories
  ++ [("REVIEWS_AMOUNT", b.review_count?.getD (.vstr "-")),
      ("RATING", b.rating?.getD (.vstr "-")),
      ("PRICE",
        match b.price? with
        | some s =>
          if s.data.contains '$' then .vint s.length else .vstr "-"
        | none => .vstr "-"),
      ("LATITUDE", b.latitude?.getD (.vstr "-")),
      ("LONGITUDE", b.longitude?.getD (.vstr "-")),
      ("ADDRESS", .vstr
        (match b.display_address? with
         | some xs => String.intercalate ", " xs
         | none => "-")),
      ("PHONE", .vstr
        (match b.phone? with
         | some s => pyReplace s "+" ""
         | none => "-")),
      ("RUN_TIMESTAMP", .vstr ts)]

/-- A well-formed Foursquare venue payload. -/
structure FsqVenue where
  canonicalUrl? : Option PyVal
  id? : Option PyVal
  name? : Option PyVal
  contact_phone? : Option PyVal
  formattedAddress? : Option (List String)
  lat? : Option PyVal
  lng? : Option PyVal
  categories : List Obj
  checkinsCount? : Option PyVal
  url? : Option PyVal
  price_tier? : Option PyVal
  rating? : Option PyVal
  ratingSignals? : Option PyVal
  createdAt? : Option PyVal
  likes_count? : Option PyVal

/-- The JSON object a `FsqVenue` stands for. -/
def FsqVenue.toObj (v : FsqVenue) : Obj :=
  optEntry "canonicalUrl" v.canonicalUrl?
  ++ optEntry "id" v.id?
  ++ optEntry "name" v.name?
  ++ [("contact", .vobj (optEntry "phone" v.contact_phone?))]
  ++ [("location", .vobj (optEntry "formattedAddress"
        (v.formattedAddress?.map (fun xs => .vlist (xs.map .vstr)))
      ++ optEntry "lat" v.lat? ++ optEntry "lng" v.lng?))]
  ++ optEntry "categories"
      (if v.categories.isEmpty then none
       else some (.vlist (v.categories.map .vobj)))
  ++ [("stats", .vobj (optEntry "checkinsCount" v.checkinsCount?))]
  ++ optEntry "url" v.url?
  ++ optEntry "price"
      (v.price_tier?.map (fun t => .vobj [("tier", t)]))
  ++ optEntry "rating" v.rating?
  ++ optEntry "ratingSignals" v.ratingSignals?
  ++ optEntry "createdAt" v.createdAt?
  ++ [("likes", .vobj (optEntry "count" v.likes_count?))]

/-- The record the specification describes for one Foursquare venue,
with the two deviations the counterexample forces: an absent price
renders as the empty mapping (not the dash) and absent categories
produce no `CATEGORY_n` columns at all. -/
def fsq_spec_record (v : FsqVenue) (q ts : String) : Obj :=
  [("QUERY", .vstr q),
   ("SOURCE_LINK", v.canonicalUrl?.getD (.vstr "-")),
   ("API_SOURCE", .vstr "foursquare"),
   ("ID", v.id?.getD (.vstr "-")),
   ("NAME", v.name?.getD (.vstr "-")),
   ("PHONE", v.contact_phone?.getD (.vstr "-")),
   ("ADDRESS", .vstr
     (match v.formattedAddress? with
      | some xs => String.intercalate ", " xs
      | none => "-")),
   ("LATITUDE", v.lat?.getD (.vstr "-")),
   ("LONGITUDE", v.lng?.getD (.vstr "-"))]
  ++ spec_categories "name" v.categories
  ++ [("CHECKINS", v.checkinsCount?.getD (.vstr "-")),
      ("WEBSITE", v.url?.getD (.vstr "-")),
      ("PRICE", v.price_tier?.getD (.vobj [])),
      ("RATING", v.rating?.getD (.vstr "-")),
      ("REVIEWS_AMOUNT", v.ratingSignals?.getD (.vstr "-")),
      ("CREATED_AT", v.createdAt?.getD (.vstr "-")),
      ("LIKES_AMOUNT", v.likes_count?.getD (.vstr "-")),
      ("CREATED_AT_DATE", .vstr
        (match v.createdAt? with
         | some (.vint n) => epochToDate n
         | _ => "-")),
      ("RUN_TIMESTAMP", .vstr ts)]

@[simp] theorem objGet?_nil (k : String) : objGet? [] k = none := rfl

@[simp] theorem objGet?_cons (k' k : String) (v : PyVal) (rest : Obj) :
    objGet? ((k', v) :: rest) k =
      if k' = k then some v else objGet? rest k := by
  by_cases h : k' = k <;> simp [objGet?, List.find?, h]

@[simp] theorem objGet?_append (xs ys : Obj) (k : String) :
    objGet? (xs ++ ys) k =
      (objGet? xs k).orElse (fun _ => objGet? ys k) := by
  induction xs with
  | nil => simp [Option.orElse]
  | cons kv rest ih =>
    obtain ⟨k', v⟩ := kv
    by_cases h : k' = k <;> simp [h, ih, Option.orElse]

@[simp] theorem objGet?_optEntry_same (k : String) (o : Option PyVal) :
    objGet? (optEntry k o) k = o := by
  cases o <;> simp [optEntry]

@[simp] theorem objGet?_optEntry_ne (k k' : String) (o : Option PyVal)
    (h : ¬k = k') : objGet? (optEntry k o) k' = none := by
  cases o <;> simp [optEntry, h]

@[simp] theorem pyOrElse_none (o : Option PyVal) :
    (o.orElse fun _ => none) = o := by
  cases o <;> rfl

/-- Extraction after wrapping a string list is the identity. -/
theorem map_extract_vstr (xs : List String) :
    (xs.map PyVal.vstr).map
      (fun x => match x with | .vstr s => s | y => pyStr y) = xs := by
  induction xs with
  | nil => rfl
  | cons s rest ih => simp [ih]

/-- The composed form of `map_extract_vstr`. -/
theorem map_extract_vstr_comp (xs : List String) :
    xs.map
      ((fun x => match x with | PyVal.vstr s => s | y => pyStr y)
        ∘ PyVal.vstr) = xs := by
  rw [← List.map_map]
  exact map_extract_vstr xs

/-- The numbered-category loop agrees with the enumerate-and-map form,
for any starting counter. -/
theorem category_rows_enumFrom (field : String) (cs : List Obj) :
    ∀ n, category_rows field (cs.map .vobj) n =
      (List.enumFrom n cs).map (fun p =>
        ("CATEGORY_" ++ toString (p.1 + 1),
         objGetD p.2 field (.vstr "-"))) := by
  induction cs with
  | nil => intro n; rfl
  | cons c rest ih =>
    intro n
    simp [category_rows, pyvalGetD, List.enumFrom, ih (n + 1)]

/-- The category columns of a well-formed Yelp business. -/
theorem yelp_category_rows_toObj (b : YelpBusiness) :
    category_rows "alias" (categories_list b.toObj) 0 =
      spec_categories "alias" b.categories := by
  have hc : objGet? b.toObj "categories" =
      (if b.categories.isEmpty then none
       else some (.vlist (b.categories.map .vobj))) := by
    simp [YelpBusiness.toObj]
  by_cases h : b.categories.isEmpty
  · rw [List.isEmpty_iff] at h
    simp [categories_list, hc, h, spec_categories, category_rows]
  · rw [if_neg h] at hc
    simp [categories_list, hc, spec_categories, List.enum,
      category_rows_enumFrom]

set_option maxHeartbeats 1000000 in
/-- The Yelp flattener on a well-formed business produces exactly the
record the specification describes. -/
theorem yelp_row_refines (b : YelpBusiness) (total : PyVal)
    (extracted : Int) (q ts : String) :
    Yelp__ApiWrapper.business_row total extracted q ts b.toObj =
      yelp_spec_record b total extracted q ts := by
  have hprice : Yelp__ApiWrapper.yelp_price b.toObj =
      (match b.price? with
       | some s =>
         if s.data.contains '$' then PyVal.vint s.length else .vstr "-"
       | none => .vstr "-") := by
    have h : objGet? b.toObj "price" = b.price?.map PyVal.vstr := by
      simp [YelpBusiness.toObj]
    unfold Yelp__ApiWrapper.yelp_price
    simp only [objGetD, h]
    cases b.price? <;> rfl
  have haddr : Yelp__ApiWrapper.join_display_address
      (objGetD (objGetObjD b.toObj "location") "display_address"
        (.vstr "-")) =
      (match b.display_address? with
       | some xs => String.intercalate ", " xs
       | none => "-") := by
    have h : objGet? b.toObj "location" = some (.vobj (optEntry
        "display_address"
        (b.display_address?.map (fun xs => .vlist (xs.map .vstr))))) := by
      simp [YelpBusiness.toObj]
    unfold objGetObjD
    rw [h]
    simp only [objGetD, objGet?_optEntry_same]
    cases b.display_address? with
    | none => rfl
    | some xs =>
      simp [Yelp__ApiWrapper.join_display_address, map_extract_vstr_comp]
  have hphone : (match objGetD b.toObj "phone" (.vstr "-") with
       | .vstr s => PyVal.vstr (pyReplace s "+" "")
       | y => y) =
      PyVal.vstr (match b.phone? with
       | some s => pyReplace s "+" ""
       | none => "-") := by
    have h : objGet? b.toObj "phone" = b.phone?.map PyVal.vstr := by
      simp [YelpBusiness.toObj]
    simp only [objGetD, h]
    cases b.phone? <;> rfl
  have hrev : objGetD b.toObj "review_count" (.vstr "-") =
      b.review_count?.getD (.vstr "-") := by
    simp [YelpBusiness.toObj, objGetD]
  have hrat : objGetD b.toObj "rating" (.vstr "-") =
      b.rating?.getD (.vstr "-") := by
    simp [YelpBusiness.toObj, objGetD]
  have hlat : objGetD (objGetObjD b.toObj "coordinates") "latitude"
      (.vstr "-") = b.latitude?.getD (.vstr "-") := by
    unfold objGetObjD
    simp [YelpBusiness.toObj, objGetD]
  have hlng : objGetD (objGetObjD b.toObj "coordinates") "longitude"
      (.vstr "-") = b.longitude?.getD (.vstr "-") := by
    unfold objGetObjD
    simp [YelpBusiness.toObj, objGetD]
  unfold Yelp__ApiWrapper.business_row yelp_spec_record
  rw [yelp_category_rows_toObj]
  simp only [hrev, hrat, hprice, hlat, hlng, haddr, hphone]
  simp [YelpBusiness.toObj, objGetD]

/-- Lookup of the first key in a dict built from an optional entry
followed by entries without that key. -/
theorem objGetD_optEntry_head (k : String) (o : Option PyVal)
    (rest : Obj) (d : PyVal) (hrest : objGet? rest k = none) :
    objGetD (optEntry k o ++ rest) k d = o.getD d := by
  cases o <;> simp [objGetD, hrest]

/-- The category columns of a well-formed Foursquare venue. -/
theorem fsq_category_rows_toObj (v : FsqVenue) :
    category_rows "name" (categories_list v.toObj) 0 =
      spec_categories "name" v.categories := by
  have hc : objGet? v.toObj "categories" =
      (if v.categories.isEmpty then none
       else some (.vlist (v.categories.map .vobj))) := by
    simp [FsqVenue.toObj]
  by_cases h : v.categories.isEmpty
  · rw [List.isEmpty_iff] at h
    simp [categories_list, hc, h, spec_categories, category_rows]
  · rw [if_neg h] at hc
    simp [categories_list, hc, spec_categories, List.enum,
      category_rows_enumFrom]

set_option maxHeartbeats 1000000 in
/-- The Foursquare flattener on a well-formed venue produces exactly the
record the specification describes. -/
theorem fsq_row_refines (v : FsqVenue) (q ts : String) :
    Foursquare__ApiWrapper.parse_venue_details_json_response v.toObj q ts =
      fsq_spec_record v q ts := by
  have hloc : objGet? v.toObj "location" = some (.vobj (optEntry
      "formattedAddress"
      (v.formattedAddress?.map (fun xs => .vlist (xs.map .vstr)))
      ++ optEntry "lat" v.lat? ++ optEntry "lng" v.lng?)) := by
    simp [FsqVenue.toObj]
  have haddr : Yelp__ApiWrapper.join_display_address
      (objGetD (objGetObjD v.toObj "location") "formattedAddress"
        (.vstr "-")) =
      (match v.formattedAddress? with
       | some xs => String.intercalate ", " xs
       | none => "-") := by
    unfold objGetObjD
    rw [hloc]
    rw [List.append_assoc, objGetD_optEntry_head _ _ _ _ (by simp)]
    cases v.formattedAddress? with
    | none => rfl
    | some xs =>
      simp [Yelp__ApiWrapper.join_display_address, map_extract_vstr_comp]
  have hlat : objGetD (objGetObjD v.toObj "location") "lat" (.vstr "-") =
      v.lat?.getD (.vstr "-") := by
    unfold objGetObjD
    rw [hloc]
    simp [objGetD]
  have hlng : objGetD (objGetObjD v.toObj "location") "lng" (.vstr "-") =
      v.lng?.getD (.vstr "-") := by
    unfold objGetObjD
    rw [hloc]
    simp [objGetD]
  have hphone : objGetD (objGetObjD v.toObj "contact") "phone"
      (.vstr "-") = v.contact_phone?.getD (.vstr "-") := by
    unfold objGetObjD
    simp [FsqVenue.toObj, objGetD]
  have hcheck : objGetD (objGetObjD v.toObj "stats") "checkinsCount"
      (.vstr "-") = v.checkinsCount?.getD (.vstr "-") := by
    unfold objGetObjD
    simp [FsqVenue.toObj, objGetD]
  have hlikes : objGetD (objGetObjD v.toObj "likes") "count"
      (.vstr "-") = v.likes_count?.getD (.vstr "-") := by
    unfold objGetObjD
    simp [FsqVenue.toObj, objGetD]
  have hprice : objGetD (objGetObjD v.toObj "price") "tier" (.vobj []) =
      v.price_tier?.getD (.vobj []) := by
    have h : objGet? v.toObj "price" =
        v.price_tier?.map (fun t => .vobj [("tier", t)]) := by
      simp [FsqVenue.toObj]
    unfold objGetObjD
    rw [h]
    cases v.price_tier? <;> simp [objGetD]
  have hcreated : objGetD v.toObj "createdAt" (.vstr "-") =
      v.createdAt?.getD (.vstr "-") := by
    simp [FsqVenue.toObj, objGetD]
  have hdate : (match v.createdAt?.getD (.vstr "-") with
       | PyVal.vint n => epochToDate n
       | _ => "-") =
      (match v.createdAt? with
       | some (.vint n) => epochToDate n
       | _ => "-") := by
    cases v.createdAt? with
    | none => rfl
    | some val => cases val <;> rfl
  unfold Foursquare__ApiWrapper.parse_venue_details_json_response
    fsq_spec_record
  rw [fsq_category_rows_toObj]
  simp only [haddr, hlat, hlng, hphone, hcheck, hlikes, hprice,
    hcreated, hdate]
  simp [FsqVenue.toObj, objGetD]

/-- Every numbered category column name starts with the letter `C`. -/
theorem cat_key_head (u : String) :
    ("CATEGORY_" ++ u).data.head? = some 'C' := by
  rw [String.data_append]
  rfl

/-- A key whose first letter is not `C` is never among the numbered
category columns. -/
theorem objGet?_spec_categories_none (field : String) (cs : List Obj)
    (k : String) (hk : k.data.head? ≠ some 'C') :
    objGet? (spec_categories field cs) k = none := by
  unfold objGet?
  rw [Option.map_eq_none', List.find?_eq_none]
  intro x hx
  simp only [spec_categories, List.mem_map] at hx
  obtain ⟨p, hp, rfl⟩ := hx
  simp only [decide_eq_true_eq]
  intro he
  exact hk (he ▸ cat_key_head (toString (p.1 + 1)))

/-- The `PRICE` entry of the specification's Foursquare record. -/
theorem fsq_spec_record_price_lookup (v : FsqVenue) (q ts : String) :
    objGet? (fsq_spec_record v q ts) "PRICE"
      = some (v.price_tier?.getD (.vobj [])) := by
  unfold fsq_spec_record
  simp [objGet?_spec_categories_none "name" v.categories "PRICE"
    (by decide)]

/-- A stored falsy value prints as the dash. -/
theorem csv_cell_dash_of_falsy (row : Obj) (k : String) (val : PyVal)
    (hv : objGet? row k = some val) (hval : pyTruthy val = false) :
    FileTools.csv_cell row k = "-" := by
  simp [FileTools.csv_cell, objGetD, hv, hval]

/-- An absent column prints as the dash. -/
theorem csv_cell_dash_of_absent (row : Obj) (k : String)
    (hv : objGet? row k = none) :
    FileTools.csv_cell row k = "-" := by
  simp [FileTools.csv_cell, objGetD, hv, pyTruthy]

/-- Claim C5 counterexample, falsifying the claim at two points.
First, a Yelp business whose price is the repeated currency string
`€€€` stores the dash — not the character count 3 — under `PRICE`,
because the flattener only converts strings containing `$`.  Second,
flattening a well-formed venue with no `price` field stores the empty
mapping — not the dash — under `PRICE`, and a venue with no categories
gets no `CATEGORY_1` column at all, so not every absent source field
renders as the placeholder dash in the record. -/
theorem c5_counterexample :
    objGet? (Yelp__ApiWrapper.business_row (PyVal.vstr "-") 1 "q" "ts"
        [("price", PyVal.vstr "€€€")]) "PRICE" = some (PyVal.vstr "-")
  ∧ PyVal.vstr "-" ≠ PyVal.vint 3
  ∧ ("€€€" : String).length = 3
  ∧ objGet? (Foursquare__ApiWrapper.parse_venue_details_json_response []
        "q" "ts") "PRICE" = some (PyVal.vobj [])
  ∧ PyVal.vobj [] ≠ PyVal.vstr "-"
  ∧ objGet? (Foursquare__ApiWrapper.parse_venue_details_json_response []
        "q" "ts") "CATEGORY_1" = none := by
  refine ⟨rfl, ?_, rfl, rfl, ?_, rfl⟩ <;> (intro h; cases h)

/-- Claim C5 (amended): the flattening step produces exactly one record
per entity; and on every well-formed payload the produced record equals
the specification's record — every populated source field under its
documented column, categories expanded in source order into numbered
columns, address lists comma-joined, price strings converted to their
character count only when they contain a dollar sign (other repeated
currency symbols render as the dash), numeric creation epochs converted
to the fixed date format, and absent fields rendering as the dash —
except that an absent Foursquare price renders as an empty mapping and
absent categories produce no `CATEGORY_n` entries; both of those still
print as the dash at CSV-write time (the last two conjuncts). -/
theorem c5_flattening (businesses : List Obj) (b : YelpBusiness)
    (v : FsqVenue) (total : PyVal) (extracted : Int) (q ts : String) :
    (Yelp__ApiWrapper.parse_business_search_json_response businesses
        total q ts).length = businesses.length
  ∧ Yelp__ApiWrapper.business_row total extracted q ts b.toObj
      = yelp_spec_record b total extracted q ts
  ∧ Foursquare__ApiWrapper.parse_venue_details_json_response v.toObj q ts
      = fsq_spec_record v q ts
  ∧ (v.price_tier? = none →
      FileTools.csv_cell
        (Foursquare__ApiWrapper.parse_venue_details_json_response v.toObj
          q ts) "PRICE" = "-")
  ∧ (v.categories = [] →
      FileTools.csv_cell
        (Foursquare__ApiWrapper.parse_venue_details_json_response v.toObj
          q ts) "CATEGORY_1" = "-") := by
  refine ⟨by simp [Yelp__ApiWrapper.parse_business_search_json_response],
    yelp_row_refines b total extracted q ts,
    fsq_row_refines v q ts, ?_, ?_⟩
  · intro hp
    rw [fsq_row_refines]
    exact csv_cell_dash_of_falsy _ _ (PyVal.vobj [])
      (by rw [fsq_spec_record_price_lookup, hp]; rfl) rfl
  · intro hc
    rw [fsq_row_refines]
    exact csv_cell_dash_of_absent _ _
      (by simp [fsq_spec_record, hc, spec_categories,
        objGet?_spec_categories_none])

/-- Witness for C5 at the all-absent venue: the record's `PRICE` and
(absent) `CATEGORY_1` both print as the dash. -/
theorem c5_flattening_witness :
    FileTools.csv_cell
      (Foursquare__ApiWrapper.parse_venue_details_json_response
        (FsqVenue.toObj
          ⟨none, none, none, none, none, none, none, [], none, none,
           none, none, none, none, none⟩) "q" "ts") "PRICE" = "-"
  ∧ FileTools.csv_cell
      (Foursquare__ApiWrapper.parse_venue_details_json_response
        (FsqVenue.toObj
          ⟨none, none, none, none, none, none, none, [], none, none,
           none, none, none, none, none⟩) "q" "ts") "CATEGORY_1" = "-" :=
  ⟨(c5_flattening []
      ⟨none, none, none, none, [], none, none, none, none, none, none,
       none⟩
      ⟨none, none, none, none, none, none, none, [], none, none, none,
       none, none, none, none⟩ (.vstr "-") 0 "q" "ts").2.2.2.1 rfl,
   (c5_flattening []
      ⟨none, none, none, none, [], none, none, none, none, none, none,
       none⟩
      ⟨none, none, none, none, none, none, none, [], none, none, none,
       none, none, none, none⟩ (.vstr "-") 0 "q" "ts").2.2.2.2 rfl⟩

/-! ## Two-phase search/detail runs (`src/apiwrappy.py` lines 344-376
and 470-508)

`Foursquare__ApiWrapper.run` and `Facebook__ApiWrapper.run` first loop
over all Terms issuing only search requests (or queueing a directly
supplied entity ID), collecting every detail term into a
`defaultdict(list)` keyed by the display search string; only after that
loop finishes does the detail loop issue one detail request per queued
ID.  The network is a pair of oracles: the search response for the i-th
Term, and the detail response for a given entity ID. -/

/-- One issued GET, as far as the two-phase claims are concerned: a
search call (with its parameter dict) or a detail call for one entity
ID (its remaining parameters are the constant credential fields). -/
inductive ApiRequest where
  | search (params : StrDict)
  | details (entity_id : PyVal)

/-- Is the request a search call? -/
def ApiRequest.is_search : ApiRequest → Bool
  | .search _ => true
  | .details _ => false

/-- Is the request a detail call? -/
def ApiRequest.is_details : ApiRequest → Bool
  | .search _ => false
  | .details _ => true

/-- `defaultdict(list)` update: `queue[k].extend(ids)` (also covering
`.append(x)` as `extend [x]`). -/
def dd_extend (q : List (String × List PyVal)) (k : String)
    (ids : List PyVal) : List (String × List PyVal) :=
  if q.any (fun kv => kv.1 = k) then
    q.map (fun kv => if kv.1 = k then (kv.1, kv.2 ++ ids) else kv)
  else q ++ [(k, ids)]

/-- The queue flattened in iteration order: key order then id order,
exactly how the detail loops walk it. -/
def flat_queue (q : List (String × List PyVal)) : List (String × PyVal) :=
  q.flatMap (fun kv => kv.2.map (fun idv => (kv.1, idv)))

/-- Overwriting key `k` in place leaves lookups of other keys alone. -/
theorem dictSet_find?_ne (d : StrDict) (k v k' : String) (h : ¬k = k') :
    List.find? (fun kv => kv.1 = k')
        (d.map (fun kv => if kv.1 = k then (k, v) else kv)) =
      List.find? (fun kv => kv.1 = k') d := by
  have h' : ¬k' = k := fun hh => h hh.symm
  induction d with
  | nil => rfl
  | cons kv rest ih =>
    by_cases h1 : kv.1 = k
    · simp [List.find?, h1, h, h', ih]
    · by_cases h2 : kv.1 = k' <;> simp [List.find?, h1, h2, h', ih]

/-- `d[k] = v` does not change other keys. -/
theorem dgetS_dictSet_ne (d : StrDict) (k v k' : String) (h : ¬k = k') :
    dgetS (dictSet d k v) k' = dgetS d k' := by
  unfold dictSet dgetS
  split
  · rw [dictSet_find?_ne d k v k' h]
  · rw [List.find?_append,
      show List.find? (fun kv => kv.1 = k') [(k, v)] = none from by
        simp [List.find?, h]]
    cases hf : List.find? (fun kv => kv.1 = k') d <;> simp [Option.orElse]

/-- Deleting key `k` does not change other keys. -/
theorem dgetS_dictPop_ne (d : StrDict) (k k' : String) (h : ¬k = k') :
    dgetS (dictPop d k) k' = dgetS d k' := by
  unfold dictPop dgetS
  induction d with
  | nil => rfl
  | cons kv rest ih =>
    by_cases h1 : kv.1 = k
    · rw [List.filter_cons_of_neg (by simp [h1]),
        List.find?_cons_of_neg _ (by simp [h1, h])]
      exact ih
    · rw [List.filter_cons_of_pos (by simp [h1])]
      by_cases h2 : kv.1 = k'
      · rw [List.find?_cons_of_pos _ (by simp [h2]),
          List.find?_cons_of_pos _ (by simp [h2])]
      · rw [List.find?_cons_of_neg _ (by simp [h2]),
          List.find?_cons_of_neg _ (by simp [h2])]
        exact ih

/-- The combined result of a two-phase adapter run: every issued
request in order, the flattened records, and whether the run finished
without raising. -/
structure RunOut where
  trace : List ApiRequest
  records : List Obj
  ok : Bool

/-- What the first (search) loop of a two-phase run produces: its
request trace and the detail queue. -/
structure Phase1Out where
  trace : List ApiRequest
  queue : List (String × List PyVal)

/-- What the second (detail) loop produces. -/
structure Phase2Out where
  trace : List ApiRequest
  records : List Obj
  ok : Bool

namespace Foursquare__ApiWrapper

/-- `'|'.join([v for k, v in term.items() if k != 'client_id' and
k != 'client_secret'])` (line 351). -/
def search_term_str (term : StrDict) : String :=
  String.intercalate "|"
    ((term.filter (fun kv =>
      kv.1 != "client_id" && kv.1 != "client_secret")).map (fun kv => kv.2))

/-- `_update_term_credentials` (lines 281-284). -/
def _update_term_credentials (cid cs vdate : String) (term : StrDict) :
    StrDict :=
  dictSet (dictSet (dictSet term "client_id" cid) "client_secret" cs)
    "v" vdate

/-- The `ll` merge at lines 357-358. -/
def merge_ll (term : StrDict) : StrDict :=
  if dgetS term "latitude" != "" && dgetS term "longitude" != "" then
    dictSet (dictPop (dictPop term "latitude") "longitude") "ll"
      (dgetS term "latitude" ++ "," ++ dgetS term "longitude")
  else term

/-- `parse_venues_search_json_response` (lines 300-302), keeping the id
values that the produced `{'foursquare_id': venue['id']}` dicts carry:
`response.get('response', {}).get('venues', {})`, one id per venue with
a truthy `id`.  The `{}` default (or any non-list) yields no ids. -/
def parse_venues_search_json_response (response_json : PyVal) :
    List PyVal :=
  match pyvalGetD (pyvalGetD response_json "response" (.vobj []))
      "venues" (.vobj []) with
  | .vlist venues =>
    venues.filterMap (fun venue =>
      match venue with
      | .vobj o =>
        (match objGet? o "id" with
         | some idv => if pyTruthy idv then some idv else none
         | none => none)
      | _ => none)
  | _ => []

/-- The first loop of `run` (lines 345-370): per Term, skip on the
locator check, else build the display string, add credentials, merge
coordinates; queue a directly supplied id, else issue the search call
and queue the parsed ids.  `i` indexes the Terms for the search oracle,
`q` and `tr` are the accumulated queue and trace. -/
def run_phase1 (cid cs vdate : String) (search_resp : Nat → PyVal) :
    List StrDict → Nat → List (String × List PyVal) → List ApiRequest →
      Phase1Out
  | [], _, q, tr => ⟨tr, q⟩
  | term :: rest, i, q, tr =>
    if term_skipped term then
      run_phase1 cid cs vdate search_resp rest (i + 1) q tr
    else
      let s := search_term_str term
      let t2 := merge_ll (_update_term_credentials cid cs vdate term)
      if dgetS t2 "foursquare_id" != "" then
        run_phase1 cid cs vdate search_resp rest (i + 1)
          (dd_extend q s [.vstr (dgetS t2 "foursquare_id")]) tr
      else
        run_phase1 cid cs vdate search_resp rest (i + 1)
          (dd_extend q s
            (parse_venues_search_json_response (search_resp i)))
          (tr ++ [.search t2])

/-- `self._response_json['response']['venue']` plus the subsequent use
of the venue as a dict: `some` exactly on a well-formed detail
response; `none` models the raising paths, which abort the run. -/
def fsq_extract_venue (response_json : PyVal) : Option Obj :=
  match response_json with
  | .vobj o =>
    (match objGet? o "response" with
     | some (.vobj r) =>
       (match objGet? r "venue" with
        | some (.vobj venue) => some venue
        | _ => none)
     | _ => none)
  | _ => none

/-- The second loop of `run` (lines 372-376) over the flattened queue:
one detail request per queued id, flattening each response into a
record stamped with the queue key; a malformed response raises and
stops the run with the records made so far. -/
def run_phase2 (detail_resp : PyVal → PyVal) (ts : String) :
    List (String × PyVal) → Phase2Out
  | [] => ⟨[], [], true⟩
  | (s, idv) :: rest =>
    match fsq_extract_venue (detail_resp idv) with
    | some venue =>
      let r := run_phase2 detail_resp ts rest
      ⟨.details idv :: r.trace,
       parse_venue_details_json_response venue s ts :: r.records, r.ok⟩
    | none => ⟨[.details idv], [], false⟩

/-- `Foursquare__ApiWrapper.run`: the search phase over all Terms, then
the detail phase over the collected queue. -/
def run (cid cs vdate : String) (search_resp : Nat → PyVal)
    (detail_resp : PyVal → PyVal) (ts : String) (terms : List StrDict) :
    RunOut :=
  let p1 := run_phase1 cid cs vdate search_resp terms 0 [] []
  let p2 := run_phase2 detail_resp ts (flat_queue p1.queue)
  ⟨p1.trace ++ p2.trace, p2.records, p2.ok⟩

/-- How a queued (search string, id) pair originates from a Term: the
Term is not skipped, its display string is the queue key, and the id is
either the Term's own `foursquare_id` or one parsed from that Term's
search response. -/
def id_from_term (search_resp : Nat → PyVal) (terms : List StrDict)
    (s : String) (idv : PyVal) : Prop :=
  ∃ i term, terms.get? i = some term ∧ term_skipped term = false
    ∧ s = search_term_str term
    ∧ ((dgetS term "foursquare_id" ≠ ""
          ∧ idv = .vstr (dgetS term "foursquare_id"))
       ∨ idv ∈ parse_venues_search_json_response (search_resp i))

/-- Credential and coordinate mutation leaves `foursquare_id` alone. -/
theorem fsq_mut_id (cid cs vdate : String) (term : StrDict) :
    dgetS (merge_ll (_update_term_credentials cid cs vdate term))
        "foursquare_id" = dgetS term "foursquare_id" := by
  have base : dgetS (_update_term_credentials cid cs vdate term)
      "foursquare_id" = dgetS term "foursquare_id" := by
    unfold _update_term_credentials
    rw [dgetS_dictSet_ne _ _ _ _ (by decide),
      dgetS_dictSet_ne _ _ _ _ (by decide),
      dgetS_dictSet_ne _ _ _ _ (by decide)]
  unfold merge_ll
  split
  · rw [dgetS_dictSet_ne _ _ _ _ (by decide),
      dgetS_dictPop_ne _ _ _ (by decide),
      dgetS_dictPop_ne _ _ _ (by decide), base]
  · exact base

end Foursquare__ApiWrapper

/-- Appending a fresh key to the queue, flattened. -/
theorem flat_queue_append (q : List (String × List PyVal)) (k : String)
    (ids : List PyVal) :
    flat_queue (q ++ [(k, ids)]) =
      flat_queue q ++ ids.map (fun idv => (k, idv)) := by
  simp [flat_queue]

/-- Every pair in the flattened queue after an extend was already there
or carries the extended key and one of the new ids. -/
theorem mem_flat_queue_dd_extend {q : List (String × List PyVal)}
    {k : String} {ids : List PyVal} {x : String × PyVal}
    (h : x ∈ flat_queue (dd_extend q k ids)) :
    x ∈ flat_queue q ∨ (x.1 = k ∧ x.2 ∈ ids) := by
  unfold dd_extend at h
  split at h
  · simp only [flat_queue, List.mem_flatMap, List.mem_map] at h
    obtain ⟨kv, ⟨kv0, hkv0, rfl⟩, hx⟩ := h
    by_cases hk : kv0.1 = k
    · rw [if_pos hk] at hx
      simp only [List.mem_map, List.mem_append] at hx
      obtain ⟨idv, hidv | hidv, rfl⟩ := hx
      · left
        simp only [flat_queue, List.mem_flatMap, List.mem_map]
        exact ⟨kv0, hkv0, idv, hidv, rfl⟩
      · right
        exact ⟨hk, hidv⟩
    · rw [if_neg hk] at hx
      left
      simp only [flat_queue, List.mem_flatMap, List.mem_map]
      exact ⟨kv0, hkv0, hx⟩
  · rw [flat_queue_append, List.mem_append] at h
    rcases h with h | h
    · exact Or.inl h
    · right
      rw [List.mem_map] at h
      obtain ⟨idv, hidv, rfl⟩ := h
      exact ⟨rfl, hidv⟩

namespace Foursquare__ApiWrapper

/-- Queue provenance invariant of the search phase: every queued pair
was already queued or originates from one of the remaining Terms (the
oracle index of the j-th remaining Term being `i + j`). -/
theorem run_phase1_queue (cid cs vdate : String)
    (search_resp : Nat → PyVal) :
    ∀ (terms : List StrDict) (i : Nat)
      (q : List (String × List PyVal)) (tr : List ApiRequest)
      (x : String × PyVal),
      x ∈ flat_queue
        (run_phase1 cid cs vdate search_resp terms i q tr).queue →
      x ∈ flat_queue q ∨
        ∃ j term, terms.get? j = some term ∧ term_skipped term = false
          ∧ x.1 = search_term_str term
          ∧ ((dgetS term "foursquare_id" ≠ ""
                ∧ x.2 = .vstr (dgetS term "foursquare_id"))
             ∨ x.2 ∈ parse_venues_search_json_response
                 (search_resp (i + j))) := by
  intro terms
  induction terms with
  | nil =>
    intro i q tr x h
    exact Or.inl h
  | cons term rest ih =>
    intro i q tr x h
    rw [run_phase1] at h
    by_cases hskip : term_skipped term
    · rw [if_pos hskip] at h
      rcases ih (i + 1) q tr x h with hq | ⟨j, t, hj, hsk, hs, hid⟩
      · exact Or.inl hq
      · refine Or.inr ⟨j + 1, t, by simpa using hj, hsk, hs, ?_⟩
        rcases hid with hid | hid
        · exact Or.inl hid
        · right
          have : i + 1 + j = i + (j + 1) := by omega
          rw [this] at hid
          exact hid
    · rw [if_neg hskip] at h
      by_cases hfid :
          dgetS (merge_ll (_update_term_credentials cid cs vdate term))
            "foursquare_id" != ""
      · rw [if_pos hfid] at h
        rcases ih (i + 1) _ tr x h with hq | ⟨j, t, hj, hsk, hs, hid⟩
        · rcases mem_flat_queue_dd_extend hq with hq0 | ⟨hk, hv⟩
          · exact Or.inl hq0
          · refine Or.inr ⟨0, term, rfl, by simpa using hskip, hk, Or.inl ?_⟩
            rw [List.mem_singleton] at hv
            rw [fsq_mut_id] at hfid hv
            exact ⟨by simpa using hfid, hv⟩
        · refine Or.inr ⟨j + 1, t, by simpa using hj, hsk, hs, ?_⟩
          rcases hid with hid | hid
          · exact Or.inl hid
          · right
            have : i + 1 + j = i + (j + 1) := by omega
            rw [this] at hid
            exact hid
      · rw [if_neg hfid] at h
        rcases ih (i + 1) _ _ x h with hq | ⟨j, t, hj, hsk, hs, hid⟩
        · rcases mem_flat_queue_dd_extend hq with hq0 | ⟨hk, hv⟩
          · exact Or.inl hq0
          · refine Or.inr ⟨0, term, rfl, by simpa using hskip, hk, Or.inr ?_⟩
            rw [Nat.add_zero]
            exact hv
        · refine Or.inr ⟨j + 1, t, by simpa using hj, hsk, hs, ?_⟩
          rcases hid with hid | hid
          · exact Or.inl hid
          · right
            have : i + 1 + j = i + (j + 1) := by omega
            rw [this] at hid
            exact hid

end Foursquare__ApiWrapper

namespace Foursquare__ApiWrapper

/-- The search phase only ever appends search requests to its trace. -/
theorem run_phase1_trace (cid cs vdate : String)
    (search_resp : Nat → PyVal) :
    ∀ (terms : List StrDict) (i : Nat)
      (q : List (String × List PyVal)) (tr : List ApiRequest),
      ∀ r ∈ (run_phase1 cid cs vdate search_resp terms i q tr).trace,
        r ∈ tr ∨ r.is_search = true := by
  intro terms
  induction terms with
  | nil => intro i q tr r h; exact Or.inl h
  | cons term rest ih =>
    intro i q tr r h
    rw [run_phase1] at h
    by_cases hskip : term_skipped term
    · rw [if_pos hskip] at h
      exact ih (i + 1) q tr r h
    · rw [if_neg hskip] at h
      by_cases hfid :
          dgetS (merge_ll (_update_term_credentials cid cs vdate term))
            "foursquare_id" != ""
      · rw [if_pos hfid] at h
        exact ih (i + 1) _ tr r h
      · rw [if_neg hfid] at h
        rcases ih (i + 1) _ _ r h with hr | hr
        · rw [List.mem_append] at hr
          rcases hr with hr | hr
          · exact Or.inl hr
          · right
            rw [List.mem_singleton] at hr
            subst hr
            rfl
        · exact Or.inr hr

/-- The detail phase only issues detail requests. -/
theorem run_phase2_trace (detail_resp : PyVal → PyVal) (ts : String) :
    ∀ (pairs : List (String × PyVal)),
      ∀ r ∈ (run_phase2 detail_resp ts pairs).trace,
        r.is_details = true := by
  intro pairs
  induction pairs with
  | nil => intro r h; exact absurd h (List.not_mem_nil r)
  | cons p rest ih =>
    intro r h
    obtain ⟨s, idv⟩ := p
    rw [run_phase2] at h
    cases hx : fsq_extract_venue (detail_resp idv) with
    | some venue =>
      rw [hx] at h
      rcases List.mem_cons.mp h with rfl | h
      · rfl
      · exact ih r h
    | none =>
      rw [hx] at h
      rcases List.mem_singleton.mp h with rfl
      rfl

/-- Every record the detail phase produces comes from one queued pair,
flattened from that pair's detail response and stamped with its search
string. -/
theorem run_phase2_records (detail_resp : PyVal → PyVal) (ts : String) :
    ∀ (pairs : List (String × PyVal)) (rec : Obj),
      rec ∈ (run_phase2 detail_resp ts pairs).records →
      ∃ s idv venue, (s, idv) ∈ pairs
        ∧ fsq_extract_venue (detail_resp idv) = some venue
        ∧ rec = parse_venue_details_json_response venue s ts := by
  intro pairs
  induction pairs with
  | nil => intro rec h; exact absurd h (List.not_mem_nil rec)
  | cons p rest ih =>
    intro rec h
    obtain ⟨s, idv⟩ := p
    rw [run_phase2] at h
    cases hx : fsq_extract_venue (detail_resp idv) with
    | some venue =>
      rw [hx] at h
      rcases List.mem_cons.mp h with rfl | h
      · exact ⟨s, idv, venue, List.mem_cons_self .., hx, rfl⟩
      · obtain ⟨s', idv', venue', hmem, hex, hrec⟩ := ih rec h
        exact ⟨s', idv', venue', List.mem_cons_of_mem _ hmem, hex, hrec⟩
    | none =>
      rw [hx] at h
      exact absurd h (List.not_mem_nil rec)

/-- The record for a venue carries the queue key as its `QUERY`. -/
theorem fsq_record_query (venue : Obj) (s ts : String) :
    objGet? (parse_venue_details_json_response venue s ts) "QUERY"
      = some (.vstr s) := rfl

end Foursquare__ApiWrapper

/-! ## Facebook adapter (`src/apiwrappy.py` lines 379-508) -/

namespace Facebook__ApiWrapper

/-- The adapter's expected input columns (class attribute). -/
def TERMS_HEADERS : List String :=
  ["q", "drop_1", "latitude", "longitude", "radius", "limit", "drop_3",
   "facebook_id"]

/-- The fixed detail-field list attached to every detail call. -/
def ID_FIELDS : List String :=
  ["about", "website", "category_list", "checkins", "cover", "engagement",
   "hours", "id", "is_always_open", "app_links", "is_permanently_closed",
   "is_verified", "description", "link", "location", "name",
   "overall_star_rating", "parking", "payment_options", "phone",
   "price_range", "rating_count", "restaurant_services",
   "restaurant_specialties", "single_line_address"]

/-- The locator-field check at line 473 of `run`. -/
def term_skipped (term : StrDict) : Bool :=
  !(["q", "latitude", "longitude", "facebook_id"].any
      (fun i => dgetS term i ≠ ""))

/-- `'|'.join([v for k, v in term.items() if k != 'access_token'])`
(line 477). -/
def search_term_str (term : StrDict) : String :=
  String.intercalate "|"
    ((term.filter (fun kv => kv.1 != "access_token")).map (fun kv => kv.2))

/-- `_update_term_credentials` (lines 415-416). -/
def _update_term_credentials (tok : String) (term : StrDict) : StrDict :=
  dictSet term "access_token" tok

/-- The `center` merge at lines 493-494. -/
def merge_center (term : StrDict) : StrDict :=
  if dgetS term "latitude" != "" && dgetS term "longitude" != "" then
    dictSet (dictPop (dictPop term "latitude") "longitude") "center"
      (dgetS term "latitude" ++ "," ++ dgetS term "longitude")
  else term

/-- `parse_places_details_json_response` (lines 432-434): one id per
entry of `response.get('data', [])` with a truthy `id`. -/
def parse_places_details_json_response (response_json : PyVal) :
    List PyVal :=
  match pyvalGetD response_json "data" (.vlist []) with
  | .vlist places =>
    places.filterMap (fun place =>
      match place with
      | .vobj o =>
        (match objGet? o "id" with
         | some idv => if pyTruthy idv then some idv else none
         | none => none)
      | _ => none)
  | _ => []

/-- `len(place.get('price_range')) if '$' in place.get('price_range',
'-') else '-'` (line 460). -/
def fb_price (place : Obj) : PyVal :=
  match objGetD place "price_range" (.vstr "-") with
  | .vstr s => if s.data.contains '$' then .vint s.length else .vstr "-"
  | _ => .vstr "-"

/-- `place.get('category_list')` with the truthiness check. -/
def fb_category_list (place : Obj) : List PyVal :=
  match objGet? place "category_list" with
  | some (.vlist cs) => cs
  | _ => []

/-- `parse_places_info_json_response` (lines 436-468): the `ROW` built
from the detail response (the response body itself is the place), in
source insertion order. -/
def parse_places_info_json_response (response_json : PyVal)
    (search_term_str ts : String) : Obj :=
  let place := match response_json with
    | .vobj o => o
    | _ => ([] : Obj)
  [("QUERY", .vstr search_term_str),
   ("API_SOURCE", .vstr "facebook"),
   ("SOURCE_LINK", objGetD place "link" (.vstr "-")),
   ("ID", .vstr ("\x27" ++ pyStr (objGetD place "id" (.vstr "-")))),
   ("NAME", objGetD place "name" (.vstr "-")),
   ("PHONE", objGetD place "phone" (.vstr "-")),
   ("ADDRESS", objGetD place "single_line_address" (.vstr "-")),
   ("LATITUDE",
     objGetD (objGetObjD place "location") "latitude" (.vstr "-")),
   ("LONGITUDE",
     objGetD (objGetObjD place "location") "longitude" (.vstr "-"))]
  ++ category_rows "name" (fb_category_list place) 0
  ++ [("WEBSITE", objGetD place "website" (.vstr "-")),
      ("PRICE", fb_price place),
      ("REVIEWS_AMOUNT", .vstr (pyReplace
        (pyStr (objGetD place "rating_count" (.vstr "-"))) "." ",")),
      ("RATING", objGetD place "overall_star_rating" (.vstr "-")),
      ("IS_CLOSED",
        .vstr (pyStr (objGetD place "is_permanently_closed" (.vstr "-")))),
      ("LIKES_AMOUNT",
        objGetD (objGetObjD place "engagement") "count" (.vstr "-")),
      ("CHECKINS", objGetD place "checkins" (.vstr "-")),
      ("RUN_TIMESTAMP", .vstr ts)]

/-- The first loop of `run` (lines 472-501): skip on the locator check,
build the display string, add the access token and `type=place`; queue
a directly supplied id, else apply the default limit (100) and
coordinate merge, issue the search and queue the parsed ids. -/
def run_phase1 (tok : String) (search_resp : Nat → PyVal) :
    List StrDict → Nat → List (String × List PyVal) → List ApiRequest →
      Phase1Out
  | [], _, q, tr => ⟨tr, q⟩
  | term :: rest, i, q, tr =>
    if term_skipped term then
      run_phase1 tok search_resp rest (i + 1) q tr
    else
      let s := search_term_str term
      let t2 := dictSet (_update_term_credentials tok term) "type" "place"
      if dgetS t2 "facebook_id" != "" then
        run_phase1 tok search_resp rest (i + 1)
          (dd_extend q s [.vstr (dgetS t2 "facebook_id")]) tr
      else
        let t3 := if dgetS t2 "limit" = "" then dictSet t2 "limit" "100"
          else t2
        let t4 := merge_center t3
        run_phase1 tok search_resp rest (i + 1)
          (dd_extend q s
            (parse_places_details_json_response (search_resp i)))
          (tr ++ [.search t4])

/-- The second loop of `run` (lines 503-508): one detail request per
queued id (carrying the fixed field list and the token), each response
flattened into a record stamped with the queue key. -/
def run_phase2 (detail_resp : PyVal → PyVal) (ts : String) :
    List (String × PyVal) → Phase2Out
  | [] => ⟨[], [], true⟩
  | (s, idv) :: rest =>
    let r := run_phase2 detail_resp ts rest
    ⟨.details idv :: r.trace,
     parse_places_info_json_response (detail_resp idv) s ts :: r.records,
     r.ok⟩

/-- `Facebook__ApiWrapper.run`: the search phase over all Terms, then
the detail phase over the collected queue. -/
def run (tok : String) (search_resp : Nat → PyVal)
    (detail_resp : PyVal → PyVal) (ts : String) (terms : List StrDict) :
    RunOut :=
  let p1 := run_phase1 tok search_resp terms 0 [] []
  let p2 := run_phase2 detail_resp ts (flat_queue p1.queue)
  ⟨p1.trace ++ p2.trace, p2.records, p2.ok⟩

/-- How a queued (search string, id) pair originates from a Term. -/
def id_from_term (search_resp : Nat → PyVal) (terms : List StrDict)
    (s : String) (idv : PyVal) : Prop :=
  ∃ i term, terms.get? i = some term ∧ term_skipped term = false
    ∧ s = search_term_str term
    ∧ ((dgetS term "facebook_id" ≠ ""
          ∧ idv = .vstr (dgetS term "facebook_id"))
       ∨ idv ∈ parse_places_details_json_response (search_resp i))

/-- Token and type mutation leaves `facebook_id` alone. -/
theorem fb_mut_id (tok : String) (term : StrDict) :
    dgetS (dictSet (_update_term_credentials tok term) "type" "place")
        "facebook_id" = dgetS term "facebook_id" := by
  unfold _update_term_credentials
  rw [dgetS_dictSet_ne _ _ _ _ (by decide),
    dgetS_dictSet_ne _ _ _ _ (by decide)]

end Facebook__ApiWrapper

namespace Facebook__ApiWrapper

/-- Queue provenance invariant of the Facebook search phase. -/
theorem fb_run_phase1_queue (tok : String) (search_resp : Nat → PyVal) :
    ∀ (terms : List StrDict) (i : Nat)
      (q : List (String × List PyVal)) (tr : List ApiRequest)
      (x : String × PyVal),
      x ∈ flat_queue (run_phase1 tok search_resp terms i q tr).queue →
      x ∈ flat_queue q ∨
        ∃ j term, terms.get? j = some term ∧ term_skipped term = false
          ∧ x.1 = search_term_str term
          ∧ ((dgetS term "facebook_id" ≠ ""
                ∧ x.2 = .vstr (dgetS term "facebook_id"))
             ∨ x.2 ∈ parse_places_details_json_response
                 (search_resp (i + j))) := by
  intro terms
  induction terms with
  | nil =>
    intro i q tr x h
    exact Or.inl h
  | cons term rest ih =>
    intro i q tr x h
    rw [run_phase1] at h
    by_cases hskip : term_skipped term
    · rw [if_pos hskip] at h
      rcases ih (i + 1) q tr x h with hq | ⟨j, t, hj, hsk, hs, hid⟩
      · exact Or.inl hq
      · refine Or.inr ⟨j + 1, t, by simpa using hj, hsk, hs, ?_⟩
        rcases hid with hid | hid
        · exact Or.inl hid
        · right
          have : i + 1 + j = i + (j + 1) := by omega
          rw [this] at hid
          exact hid
    · rw [if_neg hskip] at h
      by_cases hfid :
          dgetS (dictSet (_update_term_credentials tok term) "type"
            "place") "facebook_id" != ""
      · rw [if_pos hfid] at h
        rcases ih (i + 1) _ tr x h with hq | ⟨j, t, hj, hsk, hs, hid⟩
        · rcases mem_flat_queue_dd_extend hq with hq0 | ⟨hk, hv⟩
          · exact Or.inl hq0
          · refine Or.inr ⟨0, term, rfl, by simpa using hskip, hk, Or.inl ?_⟩
            rw [List.mem_singleton] at hv
            rw [fb_mut_id] at hfid hv
            exact ⟨by simpa using hfid, hv⟩
        · refine Or.inr ⟨j + 1, t, by simpa using hj, hsk, hs, ?_⟩
          rcases hid with hid | hid
          · exact Or.inl hid
          · right
            have : i + 1 + j = i + (j + 1) := by omega
            rw [this] at hid
            exact hid
      · rw [if_neg hfid] at h
        rcases ih (i + 1) _ _ x h with hq | ⟨j, t, hj, hsk, hs, hid⟩
        · rcases mem_flat_queue_dd_extend hq with hq0 | ⟨hk, hv⟩
          · exact Or.inl hq0
          · refine Or.inr ⟨0, term, rfl, by simpa using hskip, hk, Or.inr ?_⟩
            rw [Nat.add_zero]
            exact hv
        · refine Or.inr ⟨j + 1, t, by simpa using hj, hsk, hs, ?_⟩
          rcases hid with hid | hid
          · exact Or.inl hid
          · right
            have : i + 1 + j = i + (j + 1) := by omega
            rw [this] at hid
            exact hid

/-- The Facebook search phase only ever appends search requests. -/
theorem fb_run_phase1_trace (tok : String) (search_resp : Nat → PyVal) :
    ∀ (terms : List StrDict) (i : Nat)
      (q : List (String × List PyVal)) (tr : List ApiRequest),
      ∀ r ∈ (run_phase1 tok search_resp terms i q tr).trace,
        r ∈ tr ∨ r.is_search = true := by
  intro terms
  induction terms with
  | nil => intro i q tr r h; exact Or.inl h
  | cons term rest ih =>
    intro i q tr r h
    rw [run_phase1] at h
    by_cases hskip : term_skipped term
    · rw [if_pos hskip] at h
      exact ih (i + 1) q tr r h
    · rw [if_neg hskip] at h
      by_cases hfid :
          dgetS (dictSet (_update_term_credentials tok term) "type"
            "place") "facebook_id" != ""
      · rw [if_pos hfid] at h
        exact ih (i + 1) _ tr r h
      · rw [if_neg hfid] at h
        rcases ih (i + 1) _ _ r h with hr | hr
        · rw [List.mem_append] at hr
          rcases hr with hr | hr
          · exact Or.inl hr
          · right
            rw [List.mem_singleton] at hr
            subst hr
            rfl
        · exact Or.inr hr

/-- The Facebook detail phase only issues detail requests. -/
theorem fb_run_phase2_trace (detail_resp : PyVal → PyVal) (ts : String) :
    ∀ (pairs : List (String × PyVal)),
      ∀ r ∈ (run_phase2 detail_resp ts pairs).trace,
        r.is_details = true := by
  intro pairs
  induction pairs with
  | nil => intro r h; exact absurd h (List.not_mem_nil r)
  | cons p rest ih =>
    intro r h
    obtain ⟨s, idv⟩ := p
    rw [run_phase2] at h
    rcases List.mem_cons.mp h with rfl | h
    · rfl
    · exact ih r h

/-- Every Facebook record comes from one queued pair. -/
theorem fb_run_phase2_records (detail_resp : PyVal → PyVal) (ts : String) :
    ∀ (pairs : List (String × PyVal)) (rec : Obj),
      rec ∈ (run_phase2 detail_resp ts pairs).records →
      ∃ s idv, (s, idv) ∈ pairs
        ∧ rec = parse_places_info_json_response (detail_resp idv) s ts := by
  intro pairs
  induction pairs with
  | nil => intro rec h; exact absurd h (List.not_mem_nil rec)
  | cons p rest ih =>
    intro rec h
    obtain ⟨s, idv⟩ := p
    rw [run_phase2] at h
    rcases List.mem_cons.mp h with rfl | h
    · exact ⟨s, idv, List.mem_cons_self .., rfl⟩
    · obtain ⟨s', idv', hmem, hrec⟩ := ih rec h
      exact ⟨s', idv', List.mem_cons_of_mem _ hmem, hrec⟩

/-- The record for a place carries the queue key as its `QUERY`. -/
theorem fb_record_query (response_json : PyVal) (s ts : String) :
    objGet? (parse_places_info_json_response response_json s ts) "QUERY"
      = some (.vstr s) := rfl

end Facebook__ApiWrapper

/-- A detail request is not a search request. -/
theorem is_details_not_search {r : ApiRequest}
    (h : r.is_details = true) : r.is_search = false := by
  cases r
  · cases h
  · rfl

/-- A search request is not a detail request. -/
theorem is_search_not_details {r : ApiRequest}
    (h : r.is_search = true) : r.is_details = false := by
  cases r
  · rfl
  · cases h

/-- A trace made of searches followed by details equals its searches
followed by its details. -/
theorem trace_split (l1 l2 : List ApiRequest)
    (h1 : ∀ r ∈ l1, r.is_search = true)
    (h2 : ∀ r ∈ l2, r.is_details = true) :
    l1 ++ l2 = (l1 ++ l2).filter ApiRequest.is_search
      ++ (l1 ++ l2).filter ApiRequest.is_details := by
  rw [List.filter_append, List.filter_append]
  rw [List.filter_eq_self.mpr h1]
  rw [List.filter_eq_self.mpr h2]
  rw [show l2.filter ApiRequest.is_search = [] from
    List.filter_eq_nil_iff.mpr (fun r hr => by
      simp [is_details_not_search (h2 r hr)])]
  rw [show l1.filter ApiRequest.is_details = [] from
    List.filter_eq_nil_iff.mpr (fun r hr => by
      simp [is_search_not_details (h1 r hr)])]
  simp

/-- Claim C9: for every Foursquare or Facebook run, the request trace
is all of its search requests followed by all of its detail requests —
no detail request is issued until every Term's search request has
completed — and every resulting record is stamped (under `QUERY`) with
the search string of a Term that produced its entity ID, either as the
Term's own provider ID or out of that Term's search response. -/
theorem c9_two_phase_separation
    (cid cs vdate tok ts : String)
    (fsq_search fb_search : Nat → PyVal)
    (fsq_detail fb_detail : PyVal → PyVal)
    (fsq_terms fb_terms : List StrDict) :
    ((Foursquare__ApiWrapper.run cid cs vdate fsq_search fsq_detail ts
        fsq_terms).trace
      = (Foursquare__ApiWrapper.run cid cs vdate fsq_search fsq_detail ts
          fsq_terms).trace.filter ApiRequest.is_search
        ++ (Foursquare__ApiWrapper.run cid cs vdate fsq_search fsq_detail
            ts fsq_terms).trace.filter ApiRequest.is_details
     ∧ ∀ rec ∈ (Foursquare__ApiWrapper.run cid cs vdate fsq_search
          fsq_detail ts fsq_terms).records,
        ∃ s idv venue,
          objGet? rec "QUERY" = some (.vstr s)
        ∧ Foursquare__ApiWrapper.id_from_term fsq_search fsq_terms s idv
        ∧ Foursquare__ApiWrapper.fsq_extract_venue (fsq_detail idv)
            = some venue
        ∧ rec = Foursquare__ApiWrapper.parse_venue_details_json_response
            venue s ts)
  ∧ ((Facebook__ApiWrapper.run tok fb_search fb_detail ts fb_terms).trace
      = (Facebook__ApiWrapper.run tok fb_search fb_detail ts
          fb_terms).trace.filter ApiRequest.is_search
        ++ (Facebook__ApiWrapper.run tok fb_search fb_detail ts
            fb_terms).trace.filter ApiRequest.is_details
     ∧ ∀ rec ∈ (Facebook__ApiWrapper.run tok fb_search fb_detail ts
          fb_terms).records,
        ∃ s idv,
          objGet? rec "QUERY" = some (.vstr s)
        ∧ Facebook__ApiWrapper.id_from_term fb_search fb_terms s idv
        ∧ rec = Facebook__ApiWrapper.parse_places_info_json_response
            (fb_detail idv) s ts) := by
  refine ⟨⟨?_, ?_⟩, ?_, ?_⟩
  · have h1 : ∀ r ∈ (Foursquare__ApiWrapper.run_phase1 cid cs vdate
        fsq_search fsq_terms 0 [] []).trace, r.is_search = true := by
      intro r hr
      rcases Foursquare__ApiWrapper.run_phase1_trace cid cs vdate
        fsq_search fsq_terms 0 [] [] r hr with h | h
      · exact absurd h (List.not_mem_nil r)
      · exact h
    exact trace_split _ _ h1
      (Foursquare__ApiWrapper.run_phase2_trace fsq_detail ts _)
  · intro rec hrec
    obtain ⟨s, idv, venue, hmem, hex, hrec⟩ :=
      Foursquare__ApiWrapper.run_phase2_records fsq_detail ts _ rec hrec
    rcases Foursquare__ApiWrapper.run_phase1_queue cid cs vdate fsq_search
        fsq_terms 0 [] [] (s, idv) hmem with habs | ⟨j, term, hj, hsk, hs, hid⟩
    · exact absurd habs (List.not_mem_nil _)
    · rw [Nat.zero_add] at hid
      refine ⟨s, idv, venue, ?_, ⟨j, term, hj, hsk, hs, hid⟩, hex, hrec⟩
      rw [hrec]
      exact Foursquare__ApiWrapper.fsq_record_query venue s ts
  · have h1 : ∀ r ∈ (Facebook__ApiWrapper.run_phase1 tok fb_search
        fb_terms 0 [] []).trace, r.is_search = true := by
      intro r hr
      rcases Facebook__ApiWrapper.fb_run_phase1_trace tok fb_search fb_terms
        0 [] [] r hr with h | h
      · exact absurd h (List.not_mem_nil r)
      · exact h
    exact trace_split _ _ h1
      (Facebook__ApiWrapper.fb_run_phase2_trace fb_detail ts _)
  · intro rec hrec
    obtain ⟨s, idv, hmem, hrec⟩ :=
      Facebook__ApiWrapper.fb_run_phase2_records fb_detail ts _ rec hrec
    rcases Facebook__ApiWrapper.fb_run_phase1_queue tok fb_search fb_terms
        0 [] [] (s, idv) hmem with habs | ⟨j, term, hj, hsk, hs, hid⟩
    · exact absurd habs (List.not_mem_nil _)
    · rw [Nat.zero_add] at hid
      refine ⟨s, idv, ?_, ⟨j, term, hj, hsk, hs, hid⟩, hrec⟩
      rw [hrec]
      exact Facebook__ApiWrapper.fb_record_query (fb_detail idv) s ts

/-- A concrete Foursquare search response with one venue id `v1`. -/
def fsq_witness_search : Nat → PyVal := fun _ =>
  .vobj [("response", .vobj [("venues", .vlist [.vobj [("id", .vstr "v1")]])])]

/-- A concrete well-formed Foursquare detail response (empty venue). -/
def fsq_witness_detail : PyVal → PyVal := fun _ =>
  .vobj [("response", .vobj [("venue", .vobj [])])]

/-- A concrete Facebook search response with one place id `p1`. -/
def fb_witness_search : Nat → PyVal := fun _ =>
  .vobj [("data", .vlist [.vobj [("id", .vstr "p1")]])]

/-- A concrete Facebook detail response (empty place). -/
def fb_witness_detail : PyVal → PyVal := fun _ => .vobj []

/-- Witness for C9 on concrete single-term runs: the one Foursquare
record (from term `near=berlin`) and the one Facebook record (from term
`q=pizza`) each carry their term's search string and id provenance. -/
theorem c9_two_phase_separation_witness :
    (∃ s idv venue,
       objGet? (Foursquare__ApiWrapper.parse_venue_details_json_response
         [] "berlin" "ts") "QUERY" = some (.vstr s)
     ∧ Foursquare__ApiWrapper.id_from_term fsq_witness_search
         [[("near", "berlin")]] s idv
     ∧ Foursquare__ApiWrapper.fsq_extract_venue (fsq_witness_detail idv)
         = some venue
     ∧ Foursquare__ApiWrapper.parse_venue_details_json_response []
         "berlin" "ts"
       = Foursquare__ApiWrapper.parse_venue_details_json_response venue
           s "ts")
  ∧ (∃ s idv,
       objGet? (Facebook__ApiWrapper.parse_places_info_json_response
         (.vobj []) "pizza" "ts") "QUERY" = some (.vstr s)
     ∧ Facebook__ApiWrapper.id_from_term fb_witness_search
         [[("q", "pizza")]] s idv
     ∧ Facebook__ApiWrapper.parse_places_info_json_response (.vobj [])
         "pizza" "ts"
       = Facebook__ApiWrapper.parse_places_info_json_response
           (fb_witness_detail idv) s "ts") := by
  have happ := c9_two_phase_separation "c" "s" "v" "tok" "ts"
    fsq_witness_search fb_witness_search fsq_witness_detail
    fb_witness_detail [[("near", "berlin")]] [[("q", "pizza")]]
  constructor
  · apply happ.1.2
    rw [show (Foursquare__ApiWrapper.run "c" "s" "v" fsq_witness_search
        fsq_witness_detail "ts" [[("near", "berlin")]]).records
      = [Foursquare__ApiWrapper.parse_venue_details_json_response []
          "berlin" "ts"] from rfl]
    exact List.mem_singleton.mpr rfl
  · apply happ.2.2
    rw [show (Facebook__ApiWrapper.run "tok" fb_witness_search
        fb_witness_detail "ts" [[("q", "pizza")]]).records
      = [Facebook__ApiWrapper.parse_places_info_json_response (.vobj [])
          "pizza" "ts"] from rfl]
    exact List.mem_singleton.mpr rfl
